import Mathlib

/-!
Verification of the reconciliation core of the todoist-bridge daemon.

The development shallowly embeds the change detector, conflict resolver and
the two reconciliation engines (the one-way Google Tasks engine and the
bi-directional Microsoft To-Do engine) as pure Lean functions over explicit
state, and proves the stated properties about them.

Modelling conventions, used throughout:

* JavaScript timestamp strings are represented by their parse result
  (`new Date(s).getTime()` / date-fns `parseISO`): `Option Nat`, where
  `some t` is a finite epoch-milliseconds value and `none` is an invalid
  parse (`NaN`).  Any numeric comparison involving `NaN` is `false` in
  JavaScript, which `jsGt` / `jsGe` reproduce.
* A nullable/optional string field is an `Option String`; JavaScript
  truthiness of a string (`s ? … : …`) is `truthyStr`, and the coalescing
  idiom `s || null` is `jsOrNull` (the empty string collapses to `null`).
* The MD5 content hash is represented injectively by the tuple of the
  (coalesced) hashed fields, which models the hash exactly up to MD5
  collisions and `JSON.stringify` injectivity on fixed-shape objects.
* `date.split('T')[0]` and the date-part extraction of `extractDateOnly`
  are both modelled by `dateOnly` (the prefix before the first `T`), which
  is exact for the RFC 3339 strings the platforms emit in a UTC process.
* External platform calls are recorded in an explicit trace; an
  environment `Env : Nat → Bool` decides, per call index, whether the call
  succeeds or throws.  `allOk` is the environment in which every call
  succeeds (retries are transparent to the reconciler).
-/

namespace TodoistBridge

/-- JavaScript truthiness of a nullable string (`null`, `undefined` and `""`
are falsy). -/
def truthyStr : Option String → Bool
  | some s => s ≠ ""
  | none => false

/-- The JavaScript coalescing idiom `s || null` on a nullable string. -/
def jsOrNull : Option String → Option String
  | some s => if s = "" then none else some s
  | none => none

/-- The JavaScript coalescing idiom `s || ''` on a nullable string. -/
def orEmpty (s : Option String) : String := s.getD ""

/-- A parsed JavaScript date: `some t` for a finite `getTime()` value,
`none` for an invalid parse (`NaN`). -/
abbrev DateVal := Option Nat

/-- JavaScript `>` on two possibly-NaN date values: any comparison with
`NaN` is false. -/
def jsGt : DateVal → DateVal → Bool
  | some a, some b => b < a
  | _, _ => false

/-- JavaScript `>=` on two possibly-NaN date values: any comparison with
`NaN` is false. -/
def jsGe : DateVal → DateVal → Bool
  | some a, some b => b ≤ a
  | _, _ => false

/-- `s.split('T')[0]`: the prefix of the string before the first `T`. -/
def dateOnly (s : String) : String := (s.splitOn ("T")).headD s

/-- The environment deciding the outcome of each external platform call,
indexed by the call's position in the pass. -/
abbrev Env := Nat → Bool

/-- The environment in which every external call succeeds. -/
def allOk : Env := fun _ => true

/-- Fresh mirrored/remote item id returned by a create call, derived from
the call index. -/
def freshId (k : Nat) : String := String.append ("fresh-") (Nat.repr k)

/-- `tagsEqual` from `core/types.ts` (duplicated verbatim in
`sync/alexa-engine.ts`): compare lengths, sort both arrays, compare
element-wise. -/
def tagsEqual (tags1 tags2 : List String) : Bool :=
  tags1.length == tags2.length &&
    List.insertionSort (fun a b => a ≤ b) tags1 == List.insertionSort (fun a b => a ≤ b) tags2

/-- `parseStoredTags`: a null stored value parses to the empty array; the
stored JSON array round-trips to the list it serialised. -/
def parseStoredTags : Option (List String) → List String
  | none => []
  | some l => l

end TodoistBridge

namespace TodoistBridge.MS

/-- A Microsoft To-Do task as normalised from the Graph API
(`MicrosoftTodoTask` in `sources/microsoft/types.ts`).
`body` is `body?.content`, `dueDateTime` is `dueDateTime?.dateTime`,
`createdBy` is `createdBy?.user?.id`; `lastModifiedDateTime` is `none`
when the field is absent/empty and otherwise carries its parse. -/
structure MsTask where
  id : String
  title : String
  body : Option String
  status : String
  dueDateTime : Option String
  lastModifiedDateTime : Option DateVal
  createdBy : Option String
deriving DecidableEq, Repr

/-- A Todoist task as returned by the REST API (`TodoistTask` in
`sources/microsoft/mapper.ts`).  `dueDate` is `due?.date`, `dueDatetime`
is `due?.datetime`. -/
structure TodoistTask where
  id : String
  content : String
  description : String
  isCompleted : Bool
  dueDate : Option String
  dueDatetime : Option String
  labels : List String
deriving DecidableEq, Repr

/-- The MD5 content hash of `generateContentHash`, represented injectively
by the tuple of coalesced hashed fields. -/
structure ContentHash where
  title : String
  body : String
  status : String
  dueDate : String
deriving DecidableEq, Repr

/-- `generateContentHash(title, body, status, dueDate)`: every argument is
coalesced with `|| ''` before hashing. -/
def generateContentHash (title : String) (body : Option String) (status : String)
    (dueDate : Option String) : ContentHash :=
  { title := title, body := orEmpty body, status := status, dueDate := orEmpty dueDate }

/-- The stored snapshot row for one Microsoft item
(`MicrosoftTodoItemRecord` in `storage.ts`; bookkeeping columns `id` and
`synced_at` are omitted).  `applied_tags` holds the deserialised tag
list. -/
structure StoredRec where
  microsoft_id : String
  microsoft_list_id : String
  todoist_id : Option String
  title : String
  body : Option String
  status : String
  due_date : Option String
  microsoft_modified_at : Option DateVal
  todoist_modified_at : Option DateVal
  applied_tags : List String
  content_hash : ContentHash
deriving DecidableEq, Repr

/-- `msTask.dueDateTime?.dateTime?.split('T')[0]` (no `|| null`). -/
def dueDatePart (t : MsTask) : Option String := t.dueDateTime.map dateOnly

/-- `hasMicrosoftTaskChanged`: prefer the timestamp comparison when both
sides carry a marker, otherwise fall back to the content hash. -/
def hasMicrosoftTaskChanged (msTask : MsTask) (stored : StoredRec) : Bool :=
  match msTask.lastModifiedDateTime, stored.microsoft_modified_at with
  | some msModified, some storedModified => jsGt msModified storedModified
  | _, _ =>
    generateContentHash msTask.title msTask.body msTask.status (dueDatePart msTask)
      ≠ stored.content_hash

/-- The Todoist-side status string used when hashing a Todoist task. -/
def todoistStatus (t : TodoistTask) : String :=
  if t.isCompleted then "completed" else "notStarted"

/-- `hasTodoistTaskChanged`: Todoist exposes no timestamps, so the check is
always the content-hash comparison. -/
def hasTodoistTaskChanged (todoistTask : TodoistTask) (stored : StoredRec) : Bool :=
  generateContentHash todoistTask.content (some todoistTask.description)
      (todoistStatus todoistTask) todoistTask.dueDate
    ≠ stored.content_hash

/-- Winner designator of `resolveConflict`. -/
inductive Winner where
  | microsoft
  | todoist
  | none
deriving DecidableEq, Repr

/-- `resolveConflict`: last-write-wins on the markers when both are knowable,
otherwise prefer Todoist (the side fetched most recently in the cycle). -/
def resolveConflict (msTask : MsTask) (todoistTask : TodoistTask)
    (stored : StoredRec) : Winner :=
  let msChanged := hasMicrosoftTaskChanged msTask stored
  let todoistChanged := hasTodoistTaskChanged todoistTask stored
  if !msChanged && !todoistChanged then .none
  else if msChanged && !todoistChanged then .microsoft
  else if !msChanged && todoistChanged then .todoist
  else
    match msTask.lastModifiedDateTime, stored.todoist_modified_at with
    | some msModified, some todoistModified =>
      if jsGt msModified todoistModified then .microsoft else .todoist
    | _, _ => .todoist

/-- `hasCompletionStatusChanged().microsoftCompleted`. -/
def msCompleted (t : MsTask) : Bool := t.status == "completed"

/-- `hasCompletionStatusChanged().differs`. -/
def completionDiffers (msTask : MsTask) (todoistTask : TodoistTask) : Bool :=
  msCompleted msTask != todoistTask.isCompleted

end TodoistBridge.MS

namespace TodoistBridge.MS

/-- Todoist create-call parameters (`TodoistTaskCreate`), as produced by
`mapMicrosoftToTodoistCreate`. -/
structure TdCreate where
  content : String
  description : Option String
  projectId : String
  dueDate : Option String
  labels : Option (List String)
deriving DecidableEq, Repr

/-- Todoist update-call parameters (`TodoistTaskUpdate`); a `none` field is
absent from the update object. -/
structure TdUpdate where
  content : Option String
  description : Option String
  dueDate : Option (Option String)
  labels : Option (List String)
deriving DecidableEq, Repr

/-- `Object.keys(updates).length > 0` is false: every field absent. -/
def TdUpdate.isEmpty (u : TdUpdate) : Bool :=
  u.content.isNone && u.description.isNone && u.dueDate.isNone && u.labels.isNone

/-- Microsoft update-call parameters built by `updateMicrosoftFromTodoist`;
a `none` field is absent, an inner `none` is an explicit `null`. -/
structure MsUpdate where
  title : Option String
  body : Option (Option String)
  dueDateTime : Option (Option String)
deriving DecidableEq, Repr

/-- `Object.keys(updates).length > 0` is false: every field absent. -/
def MsUpdate.isEmpty (u : MsUpdate) : Bool :=
  u.title.isNone && u.body.isNone && u.dueDateTime.isNone

/-- Microsoft create-call parameters (`CreateMicrosoftTaskParams`) as
produced by `mapTodoistToMicrosoftCreate`. -/
structure MsCreateParams where
  title : String
  body : Option String
  dueDateTime : Option String
  reminderDateTime : Option String
deriving DecidableEq, Repr

/-- One external platform call made by the bi-directional engine. -/
inductive Call where
  | tdCreate (p : TdCreate)
  | tdUpdate (id : String) (u : TdUpdate)
  | tdComplete (id : String)
  | tdReopen (id : String)
  | tdDelete (id : String)
  | msCreate (listId : String) (p : MsCreateParams)
  | msUpdate (listId : String) (taskId : String) (u : MsUpdate)
  | msComplete (listId : String) (taskId : String)
  | msReopen (listId : String) (taskId : String)
deriving DecidableEq, Repr

/-- The `BidirectionalSyncResult` tally object. -/
structure SyncResult where
  success : Bool
  created : Nat
  updated : Nat
  deleted : Nat
  completed : Nat
  deletedFromSource : Nat
  tagsUpdated : Nat
  createdInSource : Nat
  updatedInSource : Nat
  completedInSource : Nat
  errors : List String
deriving DecidableEq, Repr

/-- `createEmptyBidirectionalSyncResult()`. -/
def emptyResult : SyncResult :=
  { success := true, created := 0, updated := 0, deleted := 0, completed := 0,
    deletedFromSource := 0, tagsUpdated := 0, createdInSource := 0,
    updatedInSource := 0, completedInSource := 0, errors := [] }

/-- The engine's mutable context: the snapshot store for the scope, the
trace of external calls made so far, the number of calls made (the clock
consulted by the environment), and the accumulated result tally. -/
structure EngState where
  storage : List StoredRec
  calls : List Call
  clock : Nat
  res : SyncResult
deriving DecidableEq, Repr

/-- Append an error string to the result (a caught failure). -/
def pushErr (msg : String) (s : EngState) : EngState :=
  { s with res := { s.res with errors := s.res.errors ++ [msg] } }

/-- Perform one external call: record it in the trace, advance the clock,
and report whether it succeeded. -/
def emit (env : Env) (c : Call) (s : EngState) : Bool × EngState :=
  (env s.clock, { s with calls := s.calls ++ [c], clock := s.clock + 1 })

/-- Modelled from the spec: the snapshot store's create operation
(`storage.createMicrosoftItem`), a plain insert keyed by native ID. -/
def createItem (row : StoredRec) (st : List StoredRec) : List StoredRec := st ++ [row]

/-- Modelled from the spec: the snapshot store's delete operation
(`storage.deleteMicrosoftItem`), removal by native ID. -/
def deleteItem (mid : String) (st : List StoredRec) : List StoredRec :=
  st.filter (fun r => r.microsoft_id ≠ mid)

/-- Modelled from the spec: the snapshot store's partial update operation
(`storage.updateMicrosoftItem`), applied to the row with the given native
ID (the update function sets exactly the columns the call site passes). -/
def updateItem (mid : String) (f : StoredRec → StoredRec) (st : List StoredRec) :
    List StoredRec :=
  st.map (fun r => if r.microsoft_id == mid then f r else r)

def incCreated (r : SyncResult) : SyncResult := { r with created := r.created + 1 }

def incUpdated (r : SyncResult) : SyncResult := { r with updated := r.updated + 1 }

def incDeleted (r : SyncResult) : SyncResult := { r with deleted := r.deleted + 1 }

def incCompleted (r : SyncResult) : SyncResult := { r with completed := r.completed + 1 }

def incTagsUpdated (r : SyncResult) : SyncResult := { r with tagsUpdated := r.tagsUpdated + 1 }

def incCreatedInSource (r : SyncResult) : SyncResult :=
  { r with createdInSource := r.createdInSource + 1 }

def incUpdatedInSource (r : SyncResult) : SyncResult :=
  { r with updatedInSource := r.updatedInSource + 1 }

def incCompletedInSource (r : SyncResult) : SyncResult :=
  { r with completedInSource := r.completedInSource + 1 }

/-- `mapMicrosoftToTodoistCreate`. -/
def mapMicrosoftToTodoistCreate (msTask : MsTask) (projectId : String)
    (tags : List String) : TdCreate :=
  { content := msTask.title,
    description := jsOrNull msTask.body,
    projectId := projectId,
    dueDate := (jsOrNull msTask.dueDateTime).map dateOnly,
    labels := if tags.length > 0 then some tags else none }

/-- `mapMicrosoftToTodoistUpdate`. -/
def mapMicrosoftToTodoistUpdate (msTask : MsTask) (stored : StoredRec)
    (tags : List String) : TdUpdate :=
  let newBody := jsOrNull msTask.body
  let newDueDate := jsOrNull (dueDatePart msTask)
  { content := if msTask.title ≠ stored.title then some msTask.title else none,
    description := if newBody ≠ stored.body then some (orEmpty newBody) else none,
    dueDate := if newDueDate ≠ stored.due_date then some newDueDate else none,
    labels := if tags.length > 0 then some tags else none }

/-- Model of `new Date(d).toISOString()` for a `YYYY-MM-DD` date string. -/
def isoOfDate (d : String) : String := String.append d ("T00:00:00.000Z")

/-- `mapTodoistToMicrosoftCreate` (the reminder is set only when
`assign_to_self` is configured and the task carries a time). -/
def mapTodoistToMicrosoftCreate (todoistTask : TodoistTask) (assignToSelf : Bool) :
    MsCreateParams :=
  { title := todoistTask.content,
    body := if todoistTask.description ≠ "" then some todoistTask.description else none,
    dueDateTime := if truthyStr todoistTask.dueDate
                   then some (isoOfDate (orEmpty todoistTask.dueDate)) else none,
    reminderDateTime := if assignToSelf && truthyStr todoistTask.dueDatetime
                        then todoistTask.dueDatetime else none }

/-- `createStoredRecordFromMicrosoft` (`synced_at` bookkeeping omitted;
`now` is the wall clock read for `new Date().toISOString()`). -/
def createStoredRecordFromMicrosoft (msTask : MsTask) (listId : String)
    (todoistId : Option String) (tags : List String) (now : Nat) : StoredRec :=
  let dueDate := jsOrNull (dueDatePart msTask)
  { microsoft_id := msTask.id,
    microsoft_list_id := listId,
    todoist_id := todoistId,
    title := msTask.title,
    body := jsOrNull msTask.body,
    status := msTask.status,
    due_date := dueDate,
    microsoft_modified_at := msTask.lastModifiedDateTime,
    todoist_modified_at := some (some now),
    applied_tags := tags,
    content_hash := generateContentHash msTask.title msTask.body msTask.status dueDate }

/-- `createStoredRecordFromTodoist`. -/
def createStoredRecordFromTodoist (todoistTask : TodoistTask) (microsoftId : String)
    (listId : String) (tags : List String) (now : Nat) : StoredRec :=
  let status := todoistStatus todoistTask
  let dueDate := jsOrNull todoistTask.dueDate
  { microsoft_id := microsoftId,
    microsoft_list_id := listId,
    todoist_id := some todoistTask.id,
    title := todoistTask.content,
    body := jsOrNull (some todoistTask.description),
    status := status,
    due_date := dueDate,
    microsoft_modified_at := some (some now),
    todoist_modified_at := some (some now),
    applied_tags := tags,
    content_hash := generateContentHash todoistTask.content (some todoistTask.description)
      status dueDate }

/-- `MicrosoftTodoSource.filterByAssignment`: when the exclusion option is
on and the authenticated identity is known, keep only items with no
attribution or attributed to that identity. -/
def filterByAssignment (exclude : Bool) (uid : Option String)
    (items : List MsTask) : List MsTask :=
  match uid with
  | none => items
  | some u =>
    if !exclude then items
    else items.filter (fun item =>
      match item.createdBy with
      | none => true
      | some c => c == u)

end TodoistBridge.MS

namespace TodoistBridge.MS

/-- `MicrosoftTodoSource.createInTodoist`: create the mirrored task, mirror
a completed status, persist the snapshot, bump `created`; any throw is
caught and appended to the error list. -/
def createInTodoist (msItem : MsTask) (listId projectId : String) (tags : List String)
    (env : Env) (now : Nat) (s : EngState) : EngState :=
  let p := mapMicrosoftToTodoistCreate msItem projectId tags
  let tid := freshId s.clock
  let (ok, s1) := emit env (.tdCreate p) s
  if !ok then pushErr (String.append ("create-todoist-failed:") msItem.title) s1
  else
    let step2 : Bool × EngState :=
      if msItem.status == "completed" then
        let (ok2, s2) := emit env (.tdComplete tid) s1
        if ok2 then (true, { s2 with res := incCompleted s2.res }) else (false, s2)
      else (true, s1)
    match step2 with
    | (false, s2) => pushErr (String.append ("create-todoist-failed:") msItem.title) s2
    | (true, s2) =>
      let row := createStoredRecordFromMicrosoft msItem listId (some tid) tags now
      { s2 with storage := createItem row s2.storage, res := incCreated s2.res }

/-- `MicrosoftTodoSource.createInMicrosoft`: create the remote task from a
Todoist task, mirror completion, persist the snapshot, bump
`createdInSource`; any throw is caught and appended. -/
def createInMicrosoft (todoistTask : TodoistTask) (listId : String) (tags : List String)
    (assignToSelf : Bool) (env : Env) (now : Nat) (s : EngState) : EngState :=
  let p := mapTodoistToMicrosoftCreate todoistTask assignToSelf
  let mid := freshId s.clock
  let (ok, s1) := emit env (.msCreate listId p) s
  if !ok then pushErr (String.append ("create-microsoft-failed:") todoistTask.content) s1
  else
    let step2 : Bool × EngState :=
      if todoistTask.isCompleted then
        let (ok2, s2) := emit env (.msComplete listId mid) s1
        if ok2 then (true, { s2 with res := incCompletedInSource s2.res }) else (false, s2)
      else (true, s1)
    match step2 with
    | (false, s2) => pushErr (String.append ("create-microsoft-failed:") todoistTask.content) s2
    | (true, s2) =>
      let row := createStoredRecordFromTodoist todoistTask mid listId tags now
      { s2 with storage := createItem row s2.storage, res := incCreatedInSource s2.res }

/-- `MicrosoftTodoSource.syncCompletionStatus`: resolve a completion
mismatch by timestamps (a missing marker counts as `0`), push the
completion/reopen call to the losing side, then update the snapshot.  The
method has no try/catch, so a failed call raises (first component
`false`) and the snapshot is left untouched. -/
def syncCompletionStatus (msItem : MsTask) (todoistTask : TodoistTask)
    (stored : StoredRec) (listId : String) (env : Env) (now : Nat)
    (s : EngState) : Bool × EngState :=
  let msModified : DateVal :=
    match msItem.lastModifiedDateTime with
    | some v => v
    | none => some 0
  let todoistModified : DateVal :=
    match stored.todoist_modified_at with
    | some v => v
    | none => some 0
  let step : Bool × EngState :=
    if jsGe msModified todoistModified then
      if msCompleted msItem then
        let (ok, s1) := emit env (.tdComplete todoistTask.id) s
        if ok then (true, { s1 with res := incCompleted s1.res }) else (false, s1)
      else
        let (ok, s1) := emit env (.tdReopen todoistTask.id) s
        if ok then (true, { s1 with res := incUpdated s1.res }) else (false, s1)
    else
      if todoistTask.isCompleted then
        let (ok, s1) := emit env (.msComplete listId msItem.id) s
        if ok then (true, { s1 with res := incCompletedInSource s1.res }) else (false, s1)
      else
        let (ok, s1) := emit env (.msReopen listId msItem.id) s
        if ok then (true, { s1 with res := incUpdatedInSource s1.res }) else (false, s1)
  match step with
  | (false, s1) => (false, s1)
  | (true, s1) =>
    (true, { s1 with storage := updateItem stored.microsoft_id (fun r =>
        { r with status := if msCompleted msItem then "completed" else "notStarted",
                 microsoft_modified_at := msItem.lastModifiedDateTime,
                 todoist_modified_at := some (some now) }) s1.storage })

/-- `MicrosoftTodoSource.updateTodoistFromMicrosoft`: push the changed
subset to Todoist (call skipped when the update object is empty), then
rewrite the snapshot (note: the snapshot's `status` column is not among
the rewritten columns).  The try/catch makes a failure non-fatal. -/
def updateTodoistFromMicrosoft (msItem : MsTask) (todoistTask : TodoistTask)
    (stored : StoredRec) (tags : List String) (env : Env) (now : Nat)
    (s : EngState) : EngState :=
  let u := mapMicrosoftToTodoistUpdate msItem stored tags
  let step : Bool × EngState :=
    if !u.isEmpty then
      let (ok, s1) := emit env (.tdUpdate todoistTask.id u) s
      if ok then (true, { s1 with res := incUpdated s1.res }) else (false, s1)
    else (true, s)
  match step with
  | (false, s1) => pushErr (String.append ("update-todoist-failed:") msItem.title) s1
  | (true, s1) =>
    { s1 with storage := updateItem stored.microsoft_id (fun r =>
        { r with title := msItem.title,
                 body := jsOrNull msItem.body,
                 due_date := jsOrNull (dueDatePart msItem),
                 microsoft_modified_at := msItem.lastModifiedDateTime,
                 todoist_modified_at := some (some now),
                 content_hash := generateContentHash msItem.title msItem.body
                   msItem.status (dueDatePart msItem) }) s1.storage }

/-- JavaScript strict inequality `a !== b` between `due?.date` (possibly
`undefined`) and a stored nullable column: equal only when both are
strings and equal (`undefined !== null` holds). -/
def jsStrictNe (a b : Option String) : Bool :=
  match a, b with
  | some x, some y => x ≠ y
  | _, _ => true

/-- The update object built by `updateMicrosoftFromTodoist`. -/
def msUpdateOf (todoistTask : TodoistTask) (stored : StoredRec) : MsUpdate :=
  { title := if todoistTask.content ≠ stored.title then some todoistTask.content else none,
    body := if todoistTask.description ≠ orEmpty stored.body
            then some (if todoistTask.description = "" then Option.none
                       else some todoistTask.description)
            else none,
    dueDateTime := if jsStrictNe todoistTask.dueDate stored.due_date
                   then some (match todoistTask.dueDate with
                     | some d => if d = "" then Option.none else some (isoOfDate d)
                     | none => Option.none)
                   else none }

/-- `MicrosoftTodoSource.updateMicrosoftFromTodoist`: push the changed
subset to Microsoft, then rewrite the snapshot (again without the
`status` column).  The try/catch makes a failure non-fatal. -/
def updateMicrosoftFromTodoist (msItem : MsTask) (todoistTask : TodoistTask)
    (stored : StoredRec) (listId : String) (env : Env) (now : Nat)
    (s : EngState) : EngState :=
  let u := msUpdateOf todoistTask stored
  let step : Bool × EngState :=
    if !u.isEmpty then
      let (ok, s1) := emit env (.msUpdate listId msItem.id u) s
      if ok then (true, { s1 with res := incUpdatedInSource s1.res }) else (false, s1)
    else (true, s)
  match step with
  | (false, s1) => pushErr (String.append ("update-microsoft-failed:") todoistTask.content) s1
  | (true, s1) =>
    { s1 with storage := updateItem stored.microsoft_id (fun r =>
        { r with title := todoistTask.content,
                 body := jsOrNull (some todoistTask.description),
                 due_date := jsOrNull todoistTask.dueDate,
                 microsoft_modified_at := some (some now),
                 todoist_modified_at := some (some now),
                 content_hash := generateContentHash todoistTask.content
                   (some todoistTask.description) (todoistStatus todoistTask)
                   todoistTask.dueDate }) s1.storage }

/-- `MicrosoftTodoSource.handleTodoistDeletion`: the Todoist counterpart
vanished, so recreate it from current remote state and relink the
snapshot; bump `created`.  The try/catch makes a failure non-fatal. -/
def handleTodoistDeletion (msItem : MsTask) (stored : StoredRec) (projectId : String)
    (tags : List String) (env : Env) (now : Nat) (s : EngState) : EngState :=
  let p := mapMicrosoftToTodoistCreate msItem projectId tags
  let tid := freshId s.clock
  let (ok, s1) := emit env (.tdCreate p) s
  if !ok then pushErr (String.append ("recreate-todoist-failed:") msItem.title) s1
  else
    let step2 : Bool × EngState :=
      if msItem.status == "completed" then
        let (ok2, s2) := emit env (.tdComplete tid) s1
        if ok2 then (true, s2) else (false, s2)
      else (true, s1)
    match step2 with
    | (false, s2) => pushErr (String.append ("recreate-todoist-failed:") msItem.title) s2
    | (true, s2) =>
      let st2 := updateItem stored.microsoft_id (fun r =>
        { r with todoist_id := some tid,
                 todoist_modified_at := some (some now) }) s2.storage
      { s2 with storage := st2, res := incCreated s2.res }

/-- `MicrosoftTodoSource.syncExistingItem`: a completion-status mismatch is
resolved first and short-circuits content reconciliation; otherwise the
conflict winner's values are pushed to the other side. -/
def syncExistingItem (msItem : MsTask) (todoistTask : TodoistTask) (stored : StoredRec)
    (listId : String) (tags : List String) (env : Env) (now : Nat)
    (s : EngState) : Bool × EngState :=
  if completionDiffers msItem todoistTask then
    syncCompletionStatus msItem todoistTask stored listId env now s
  else
    match resolveConflict msItem todoistTask stored with
    | .microsoft => (true, updateTodoistFromMicrosoft msItem todoistTask stored tags env now s)
    | .todoist => (true, updateMicrosoftFromTodoist msItem todoistTask stored listId env now s)
    | .none => (true, s)

/-- Lookup in the `storedByMsId` map (built from the rows fetched at the
start of the pass). -/
def findStoredByMsId (storedItems : List StoredRec) (mid : String) : Option StoredRec :=
  storedItems.find? (fun r => r.microsoft_id == mid)

/-- Lookup in the `todoistTaskMap`. -/
def findTodoistTask (tdTasks : List TodoistTask) (tid : String) : Option TodoistTask :=
  tdTasks.find? (fun t => t.id == tid)

end TodoistBridge.MS

namespace TodoistBridge.MS

/-- One iteration of the phase-1 loop of `syncList` (the remote-driven
pass); threads the `seenTodoistIds` accumulator.  A first component of
`false` means an exception escaped the iteration (only
`syncCompletionStatus` can raise). -/
def phase1Step (storedItems : List StoredRec) (tdTasks : List TodoistTask)
    (listId projectId : String) (tags : List String) (env : Env) (now : Nat)
    (msItem : MsTask) (seenTd : List String) (s : EngState) :
    Bool × List String × EngState :=
  match findStoredByMsId storedItems msItem.id with
  | none => (true, seenTd, createInTodoist msItem listId projectId tags env now s)
  | some stored =>
    if truthyStr stored.todoist_id then
      let tid := orEmpty stored.todoist_id
      let seenTd1 := seenTd ++ [tid]
      match findTodoistTask tdTasks tid with
      | some todoistTask =>
        let (ok, s1) := syncExistingItem msItem todoistTask stored listId tags env now s
        (ok, seenTd1, s1)
      | none =>
        (true, seenTd1, handleTodoistDeletion msItem stored projectId tags env now s)
    else (true, seenTd, s)

/-- Phase 1 of `syncList`: fold `phase1Step` over the filtered remote
items, stopping when an exception escapes. -/
def phase1 (storedItems : List StoredRec) (tdTasks : List TodoistTask)
    (listId projectId : String) (tags : List String) (env : Env) (now : Nat) :
    List MsTask → List String → EngState → Bool × List String × EngState
  | [], seenTd, s => (true, seenTd, s)
  | msItem :: rest, seenTd, s =>
    match phase1Step storedItems tdTasks listId projectId tags env now msItem seenTd s with
    | (true, seenTd1, s1) =>
      phase1 storedItems tdTasks listId projectId tags env now rest seenTd1 s1
    | (false, seenTd1, s1) => (false, seenTd1, s1)

/-- One iteration of the phase-2 loop of `syncList`: a Todoist task not
seen in phase 1 and without a snapshot row is new on the mirrored side
and is created on the remote platform. -/
def phase2Step (storedItems : List StoredRec) (listId : String) (tags : List String)
    (assignToSelf : Bool) (env : Env) (now : Nat) (seenTd : List String)
    (todoistTask : TodoistTask) (s : EngState) : EngState :=
  if seenTd.contains todoistTask.id then s
  else
    match storedItems.find? (fun r =>
        truthyStr r.todoist_id && orEmpty r.todoist_id == todoistTask.id) with
    | some _ => s
    | none => createInMicrosoft todoistTask listId tags assignToSelf env now s

/-- Phase 2 of `syncList` (the mirrored-driven pass). -/
def phase2 (storedItems : List StoredRec) (listId : String) (tags : List String)
    (assignToSelf : Bool) (env : Env) (now : Nat) (seenTd : List String) :
    List TodoistTask → EngState → EngState
  | [], s => s
  | todoistTask :: rest, s =>
    phase2 storedItems listId tags assignToSelf env now seenTd rest
      (phase2Step storedItems listId tags assignToSelf env now seenTd todoistTask s)

/-- One iteration of the phase-3 loop of `syncList` (orphan cleanup): a
snapshot row absent from both fetches is dropped; one absent from the
(filtered) remote fetch but present in Todoist triggers a mirrored
delete, the snapshot removal and `deleted` bump happening only when the
delete call succeeds. -/
def phase3Step (msIds : List String) (tdTasks : List TodoistTask) (env : Env)
    (stored : StoredRec) (s : EngState) : EngState :=
  let msExists := msIds.contains stored.microsoft_id
  let tdExists :=
    if truthyStr stored.todoist_id
    then (findTodoistTask tdTasks (orEmpty stored.todoist_id)).isSome
    else false
  if !msExists && !tdExists then
    { s with storage := deleteItem stored.microsoft_id s.storage }
  else if !msExists && tdExists && truthyStr stored.todoist_id then
    let (ok, s1) := emit env (.tdDelete (orEmpty stored.todoist_id)) s
    if ok then
      { s1 with storage := deleteItem stored.microsoft_id s1.storage,
                res := incDeleted s1.res }
    else s1
  else s

/-- Phase 3 of `syncList`, folded over the rows fetched at pass start. -/
def phase3 (msIds : List String) (tdTasks : List TodoistTask) (env : Env) :
    List StoredRec → EngState → EngState
  | [], s => s
  | stored :: rest, s =>
    phase3 msIds tdTasks env rest (phase3Step msIds tdTasks env stored s)

/-- `MicrosoftTodoSource.syncList` for one list mapping, after list and
project resolution: fetch both sides and the snapshot rows (the state's
store is the scope's table), filter by assignment, then run the three
phases.  A first component of `false` means an exception escaped phase 1
and the remaining phases were skipped. -/
def syncList (listId projectId : String) (tags : List String) (exclude : Bool)
    (uid : Option String) (assignToSelf : Bool) (allMsItems : List MsTask)
    (tdTasks : List TodoistTask) (env : Env) (now : Nat) (s0 : EngState) :
    Bool × EngState :=
  let storedItems := s0.storage
  let msItems := filterByAssignment exclude uid allMsItems
  let msIds := msItems.map (fun t => t.id)
  match phase1 storedItems tdTasks listId projectId tags env now msItems [] s0 with
  | (false, _, s1) => (false, s1)
  | (true, seenTd, s1) =>
    let s2 := phase2 storedItems listId tags assignToSelf env now seenTd tdTasks s1
    let s3 := phase3 msIds tdTasks env storedItems s2
    (true, s3)

/-- One configured list mapping together with that cycle's two fetches. -/
structure MappingInput where
  listId : String
  projectId : String
  tags : List String
  allMsItems : List MsTask
  tdTasks : List TodoistTask
deriving Repr

/-- The mapping loop of `MicrosoftTodoSource.syncBidirectional`: an
exception escaping `syncList` is caught and recorded as a list-level
error. -/
def syncListsGo (exclude : Bool) (uid : Option String) (assignToSelf : Bool)
    (env : Env) (now : Nat) : List MappingInput → EngState → EngState
  | [], s => s
  | m :: rest, s =>
    let s1 :=
      match syncList m.listId m.projectId m.tags exclude uid assignToSelf
          m.allMsItems m.tdTasks env now s with
      | (true, s') => s'
      | (false, s') => pushErr (String.append ("list-sync-failed:") m.listId) s'
    syncListsGo exclude uid assignToSelf env now rest s1

/-- `MicrosoftTodoSource.syncBidirectional`: start from an empty result,
merge every mapping's outcome, then set `success` to whether the error
list is empty. -/
def syncBidirectional (exclude : Bool) (uid : Option String) (assignToSelf : Bool)
    (maps : List MappingInput) (env : Env) (now : Nat) (s0 : EngState) : EngState :=
  let sInit := { s0 with res := emptyResult }
  let s1 := syncListsGo exclude uid assignToSelf env now maps sInit
  { s1 with res := { s1.res with success := s1.res.errors.isEmpty } }

end TodoistBridge.MS

namespace TodoistBridge.G

/-- A Google Task as fetched from the API (`GoogleTask` in
`sources/google/client.ts`): `updated` is `none` when absent/empty and
otherwise carries its parse. -/
structure GoogleTask where
  id : String
  title : String
  notes : Option String
  status : String
  due : Option String
  parent : Option String
  updated : Option DateVal
deriving DecidableEq, Repr

/-- The stored snapshot row for one Google task (the `Task` interface of
`storage.ts`; bookkeeping columns `id` and `synced_at` omitted;
`applied_tags` holds the deserialised JSON array, `none` for the null
column). -/
structure StoredTask where
  google_id : String
  todoist_id : Option String
  task_list_id : String
  title : String
  notes : Option String
  status : String
  due_date : Option String
  parent_google_id : Option String
  parent_todoist_id : Option String
  google_updated_at : Option DateVal
  applied_tags : Option (List String)
deriving DecidableEq, Repr

/-- `googleTask.due ? extractDateOnly(googleTask.due) : null`, which also
equals the `googleTask.due ? googleTask.due.split('T')[0] : null` used
when writing the snapshot (both reduce to the date part in a UTC
process). -/
def gdue (g : GoogleTask) : Option String := (jsOrNull g.due).map dateOnly

/-- `hasGoogleTaskChanged`: timestamp comparison when both markers are
present, otherwise field-by-field fallback. -/
def hasGoogleTaskChanged (googleTask : GoogleTask) (storedTask : StoredTask) : Bool :=
  match googleTask.updated, storedTask.google_updated_at with
  | some googleUpdated, some storedUpdated => jsGt googleUpdated storedUpdated
  | _, _ =>
    if googleTask.title ≠ storedTask.title then true
    else if jsOrNull googleTask.notes ≠ storedTask.notes then true
    else if googleTask.status ≠ storedTask.status then true
    else if gdue googleTask ≠ storedTask.due_date then true
    else false

/-- Todoist create parameters built by `mapGoogleToTodoistCreate` (labels
are attached by the caller when tags are configured). -/
structure GCreate where
  content : String
  description : Option String
  projectId : String
  parentId : Option String
  dueDate : Option String
  labels : Option (List String)
deriving DecidableEq, Repr

/-- `mapGoogleToTodoistCreate`. -/
def mapGoogleToTodoistCreate (googleTask : GoogleTask) (projectId : String)
    (parentTodoistId : Option String) : GCreate :=
  { content := googleTask.title,
    description := jsOrNull googleTask.notes,
    projectId := projectId,
    parentId := jsOrNull parentTodoistId,
    dueDate := gdue googleTask,
    labels := Option.none }

/-- Todoist update parameters built by `mapGoogleToTodoistUpdate`. -/
structure GUpdate where
  content : Option String
  description : Option String
  dueDate : Option (Option String)
deriving DecidableEq, Repr

/-- The empty update object. -/
def GUpdate.empty : GUpdate :=
  { content := Option.none, description := Option.none, dueDate := Option.none }

/-- `mapGoogleToTodoistUpdate`: `none` when no field changed (the JS
function returns `null` then). -/
def mapGoogleToTodoistUpdate (googleTask : GoogleTask) (existingTask : StoredTask) :
    Option GUpdate :=
  let newNotes := jsOrNull googleTask.notes
  let newDueDate := gdue googleTask
  let u : GUpdate :=
    { content := if googleTask.title ≠ existingTask.title then some googleTask.title
                 else Option.none,
      description := if newNotes ≠ existingTask.notes then some (orEmpty newNotes)
                     else Option.none,
      dueDate := if newDueDate ≠ existingTask.due_date then some newDueDate
                 else Option.none }
  if u.content.isSome || u.description.isSome || u.dueDate.isSome then some u
  else Option.none

/-- One external call made by the one-way Google engine. -/
inductive GCall where
  | tdCreate (p : GCreate)
  | tdUpdateLabels (id : String) (labels : List String)
  | tdUpdate (id : String) (u : GUpdate)
  | tdComplete (id : String)
  | tdReopen (id : String)
  | tdDelete (id : String)
  | gDelete (listId : String) (taskId : String)
deriving DecidableEq, Repr

/-- The per-scope tallies of `syncTaskList` (the `stats` object; `errors`
do not exist at this level — per-item failures are only logged). -/
structure GStats where
  created : Nat
  updated : Nat
  deleted : Nat
  completed : Nat
  deletedFromSource : Nat
  tagsUpdated : Nat
deriving DecidableEq, Repr

/-- The all-zero tallies. -/
def zeroStats : GStats :=
  { created := 0, updated := 0, deleted := 0, completed := 0,
    deletedFromSource := 0, tagsUpdated := 0 }

def incCreated (st : GStats) : GStats := { st with created := st.created + 1 }

def incUpdated (st : GStats) : GStats := { st with updated := st.updated + 1 }

def incDeleted (st : GStats) : GStats := { st with deleted := st.deleted + 1 }

def incCompleted (st : GStats) : GStats := { st with completed := st.completed + 1 }

def incDeletedFromSource (st : GStats) : GStats :=
  { st with deletedFromSource := st.deletedFromSource + 1 }

def incTagsUpdated (st : GStats) : GStats := { st with tagsUpdated := st.tagsUpdated + 1 }

/-- The Google engine's context: the scope's snapshot table, the call
trace, and the call clock. -/
structure GState where
  storage : List StoredTask
  calls : List GCall
  clock : Nat
deriving DecidableEq, Repr

/-- Perform one external call (trace + clock + outcome). -/
def emitG (env : Env) (c : GCall) (s : GState) : Bool × GState :=
  (env s.clock, { s with calls := s.calls ++ [c], clock := s.clock + 1 })

/-- `storage.getTaskByGoogleId` / the `storedTaskMap` lookup. -/
def gFindByGid (st : List StoredTask) (gid : String) : Option StoredTask :=
  st.find? (fun r => r.google_id == gid)

/-- `storage.deleteTask`: remove the row with the given Google id. -/
def gDeleteByGid (gid : String) (st : List StoredTask) : List StoredTask :=
  st.filter (fun r => r.google_id ≠ gid)

/-- `storage.updateTask`: rewrite the columns passed by the call site on
the row with the given Google id. -/
def gUpdateByGid (gid : String) (f : StoredTask → StoredTask) (st : List StoredTask) :
    List StoredTask :=
  st.map (fun r => if r.google_id == gid then f r else r)

/-- The snapshot columns written by `syncTask` for a fetched task (shared
by the create and the update call sites, which pass identical values). -/
def snapshotOf (googleTask : GoogleTask) (parentTodoistId : Option String)
    (tags : List String) (r : StoredTask) : StoredTask :=
  { r with title := googleTask.title,
           notes := jsOrNull googleTask.notes,
           status := googleTask.status,
           due_date := gdue googleTask,
           parent_google_id := jsOrNull googleTask.parent,
           parent_todoist_id := jsOrNull parentTodoistId,
           google_updated_at := googleTask.updated,
           applied_tags := if tags.length > 0 then some tags else Option.none }

/-- The row `storage.createTask` receives for a new task, before the
shared column block `snapshotOf` is filled in. -/
def newRowBase (googleTask : GoogleTask) (taskListId : String) (tid : String) :
    StoredTask :=
  { google_id := googleTask.id, todoist_id := some tid, task_list_id := taskListId,
    title := googleTask.title, notes := Option.none, status := googleTask.status,
    due_date := Option.none, parent_google_id := Option.none,
    parent_todoist_id := Option.none, google_updated_at := googleTask.updated,
    applied_tags := Option.none }

/-- The body of `syncTask`'s `if (taskChanged || tagsChanged)` block: the
optional label-update call, the optional content-update call, the
optional completion/reopen call, then the unconditional snapshot
rewrite. -/
def updateBlock (googleTask : GoogleTask) (storedTask : StoredTask)
    (tags : List String) (parentTodoistId : Option String)
    (taskChanged tagsCh : Bool) (env : Env) (s : GState) (stats : GStats) :
    GState × GStats :=
  let updateParams : Option GUpdate :=
    if taskChanged then mapGoogleToTodoistUpdate googleTask storedTask
    else some GUpdate.empty
  let (s1, st1) :=
    if tagsCh && truthyStr storedTask.todoist_id then
      let (ok, sx) := emitG env
        (.tdUpdateLabels (orEmpty storedTask.todoist_id) tags) s
      if ok then (sx, incTagsUpdated stats) else (sx, stats)
    else (s, stats)
  let (s2, st2) :=
    if taskChanged then
      match updateParams with
      | some u =>
        if truthyStr storedTask.todoist_id then
          let (ok, sx) := emitG env
            (.tdUpdate (orEmpty storedTask.todoist_id) u) s1
          if ok then (sx, incUpdated st1) else (sx, st1)
        else (s1, st1)
      | none => (s1, st1)
    else (s1, st1)
  let (s3, st3) :=
    if googleTask.status != storedTask.status && truthyStr storedTask.todoist_id then
      if googleTask.status == "completed" then
        let (ok, sx) := emitG env (.tdComplete (orEmpty storedTask.todoist_id)) s2
        if ok then (sx, incCompleted st2) else (sx, st2)
      else
        let (_, sx) := emitG env (.tdReopen (orEmpty storedTask.todoist_id)) s2
        (sx, st2)
    else (s2, st2)
  let st6 := gUpdateByGid googleTask.id
    (snapshotOf googleTask parentTodoistId tags) s3.storage
  ({ s3 with storage := st6 }, st3)

/-- `GoogleTasksSource.syncTask`: one fetched task against the snapshot
map fetched at pass start.  Per-item failures are caught at each call
site and logged; they never abort the pass and never reach an error
list. -/
def syncTask (googleTask : GoogleTask) (taskListId googleListId projectId : String)
    (storedMap : List StoredTask) (deleteAfterSync : Bool) (tags : List String)
    (parentTodoistId : Option String) (env : Env) (s : GState) (stats : GStats) :
    GState × GStats :=
  match gFindByGid storedMap googleTask.id with
  | none =>
    let p0 := mapGoogleToTodoistCreate googleTask projectId parentTodoistId
    let p := if tags.length > 0 then { p0 with labels := some tags } else p0
    let tid := freshId s.clock
    let (ok, s1) := emitG env (.tdCreate p) s
    if !ok then (s1, stats)
    else
      let row : StoredTask :=
        snapshotOf googleTask parentTodoistId tags (newRowBase googleTask taskListId tid)
      let s2 := { s1 with storage := s1.storage ++ [row] }
      let step : Bool × GState × GStats :=
        if googleTask.status == "completed" then
          let (ok2, s3) := emitG env (.tdComplete tid) s2
          if ok2 then (true, s3, incCompleted stats) else (false, s3, stats)
        else (true, s2, stats)
      match step with
      | (false, s3, st3) => (s3, st3)
      | (true, s3, st3) =>
        let st4 := incCreated st3
        if deleteAfterSync then
          let (ok3, s4) := emitG env (.gDelete googleListId googleTask.id) s3
          if ok3 then
            ({ s4 with storage := gDeleteByGid googleTask.id s4.storage },
             incDeletedFromSource st4)
          else (s4, st4)
        else (s3, st4)
  | some storedTask =>
    let taskChanged := hasGoogleTaskChanged googleTask storedTask
    let tagsCh := !tagsEqual (parseStoredTags storedTask.applied_tags) tags
    let afterUpdate : GState × GStats :=
      if taskChanged || tagsCh then
        updateBlock googleTask storedTask tags parentTodoistId taskChanged tagsCh env
          s stats
      else (s, stats)
    let (s5, st5) := afterUpdate
    if deleteAfterSync && truthyStr storedTask.todoist_id then
      let (ok, s6) := emitG env (.gDelete googleListId googleTask.id) s5
      if ok then
        ({ s6 with storage := gDeleteByGid googleTask.id s6.storage },
         incDeletedFromSource st5)
      else (s6, st5)
    else (s5, st5)

/-- The parent-task loop of `syncTaskList` (no parent Todoist id). -/
def syncParents (taskListId googleListId projectId : String)
    (storedMap : List StoredTask) (deleteAfterSync : Bool) (tags : List String)
    (env : Env) : List GoogleTask → GState → GStats → GState × GStats
  | [], s, stats => (s, stats)
  | googleTask :: rest, s, stats =>
    let (s1, st1) := syncTask googleTask taskListId googleListId projectId storedMap
      deleteAfterSync tags Option.none env s stats
    syncParents taskListId googleListId projectId storedMap deleteAfterSync tags env
      rest s1 st1

/-- The child-task loop of `syncTaskList`: the parent's Todoist id is
looked up in the live store. -/
def syncChildren (taskListId googleListId projectId : String)
    (storedMap : List StoredTask) (deleteAfterSync : Bool) (tags : List String)
    (env : Env) : List GoogleTask → GState → GStats → GState × GStats
  | [], s, stats => (s, stats)
  | googleTask :: rest, s, stats =>
    let parentStored := gFindByGid s.storage (orEmpty googleTask.parent)
    let parentTodoistId := jsOrNull (parentStored.bind (fun r => r.todoist_id))
    let (s1, st1) := syncTask googleTask taskListId googleListId projectId storedMap
      deleteAfterSync tags parentTodoistId env s stats
    syncChildren taskListId googleListId projectId storedMap deleteAfterSync tags env
      rest s1 st1

/-- The deletion pass of `syncTaskList`: every pre-fetched snapshot row
whose Google id was not seen in the fetch gets a best-effort mirrored
delete (when a Todoist id is recorded), then the row is removed
unconditionally and `deleted` is bumped. -/
def deletionPass (seen : List String) (env : Env) :
    List StoredTask → GState → GStats → GState × GStats
  | [], s, stats => (s, stats)
  | storedTask :: rest, s, stats =>
    if seen.contains storedTask.google_id then deletionPass seen env rest s stats
    else
      let s1 :=
        if truthyStr storedTask.todoist_id then
          let (_, sx) := emitG env (.tdDelete (orEmpty storedTask.todoist_id)) s
          sx
        else s
      deletionPass seen env rest
        { s1 with storage := gDeleteByGid storedTask.google_id s1.storage }
        (incDeleted stats)

/-- `GoogleTasksSource.syncTaskList` for one mapped list, after project
resolution: parents before children (single-level hierarchy), then the
deletion pass over the rows fetched at pass start. -/
def syncTaskList (googleTasks : List GoogleTask) (taskListId googleListId projectId : String)
    (deleteAfterSync : Bool) (tags : List String) (env : Env) (s0 : GState) :
    GState × GStats :=
  let storedTasks := s0.storage
  let parents := googleTasks.filter (fun t => !truthyStr t.parent)
  let children := googleTasks.filter (fun t => truthyStr t.parent)
  let seen := googleTasks.map (fun t => t.id)
  let (s1, st1) := syncParents taskListId googleListId projectId storedTasks
    deleteAfterSync tags env parents s0 zeroStats
  let (s2, st2) := syncChildren taskListId googleListId projectId storedTasks
    deleteAfterSync tags env children s1 st1
  deletionPass seen env storedTasks s2 st2

end TodoistBridge.G

namespace TodoistBridge

open MS G

/-- `jsGt` is irreflexive. -/
theorem jsGt_self_eq_false (v : DateVal) : jsGt v v = false := by
  cases v <;> simp [jsGt]

/-- Sorting with `insertionSort` is invariant under permutation. -/
theorem insertionSort_eq_of_perm {t1 t2 : List String} (h : t1.Perm t2) :
    List.insertionSort (fun a b => a ≤ b) t1 = List.insertionSort (fun a b => a ≤ b) t2 := by
  have hs1 := List.sorted_insertionSort (fun a b : String => a ≤ b) t1
  have hs2 := List.sorted_insertionSort (fun a b : String => a ≤ b) t2
  exact List.eq_of_perm_of_sorted
    (((List.perm_insertionSort _ t1).trans h).trans (List.perm_insertionSort _ t2).symm)
    hs1 hs2

/-- Claim C9 (counterexample): `tagsEqual` is not set equality — the lists
`["a", "a"]` and `["a"]` denote the same set of labels, yet `tagsEqual`
returns `false` for them. -/
theorem c9_counterexample :
    tagsEqual (["a", "a"]) (["a"]) = false ∧
    (∀ x : String, x ∈ (["a", "a"] : List String) ↔ x ∈ (["a"] : List String)) := by
  refine ⟨rfl, ?_⟩
  intro x
  simp

/-- Claim C9 (amended): the `tagsEqual` predicate used by the tag-change
check returns `true` exactly when the two tag lists are permutations of
each other (equal as multisets) — in particular it is independent of the
order in which labels appear, and it coincides with set equality whenever
the lists are duplicate-free. -/
theorem c9_tagsEqual_iff_perm (t1 t2 : List String) :
    tagsEqual t1 t2 = true ↔ t1.Perm t2 := by
  constructor
  · intro h
    have h' := h
    simp only [tagsEqual, Bool.and_eq_true, beq_iff_eq] at h'
    exact ((List.perm_insertionSort (fun a b => a ≤ b) t1).symm.trans
      (h'.2 ▸ List.perm_insertionSort (fun a b => a ≤ b) t2))
  · intro h
    simp only [tagsEqual, Bool.and_eq_true, beq_iff_eq]
    exact ⟨by simp [h.length_eq], insertionSort_eq_of_perm h⟩

end TodoistBridge

namespace TodoistBridge

/-- Claim C2: `resolveConflict` returns no-conflict when neither side
changed, the changed side when exactly one changed, and — when both
changed — the side with the strictly newer modification marker if the
remote timestamp and the stored mirrored-write timestamp are both present
and parseable, defaulting to the Todoist side (the side fetched most
recently in the cycle) when they are not. -/
theorem c2_resolveConflict (msTask : MS.MsTask) (todoistTask : MS.TodoistTask)
    (stored : MS.StoredRec) :
    (MS.hasMicrosoftTaskChanged msTask stored = false →
      MS.hasTodoistTaskChanged todoistTask stored = false →
      MS.resolveConflict msTask todoistTask stored = MS.Winner.none) ∧
    (MS.hasMicrosoftTaskChanged msTask stored = true →
      MS.hasTodoistTaskChanged todoistTask stored = false →
      MS.resolveConflict msTask todoistTask stored = MS.Winner.microsoft) ∧
    (MS.hasMicrosoftTaskChanged msTask stored = false →
      MS.hasTodoistTaskChanged todoistTask stored = true →
      MS.resolveConflict msTask todoistTask stored = MS.Winner.todoist) ∧
    (∀ a b : Nat,
      MS.hasMicrosoftTaskChanged msTask stored = true →
      MS.hasTodoistTaskChanged todoistTask stored = true →
      msTask.lastModifiedDateTime = some (some a) →
      stored.todoist_modified_at = some (some b) →
      (b < a → MS.resolveConflict msTask todoistTask stored = MS.Winner.microsoft) ∧
      (a ≤ b → MS.resolveConflict msTask todoistTask stored = MS.Winner.todoist)) ∧
    (MS.hasMicrosoftTaskChanged msTask stored = true →
      MS.hasTodoistTaskChanged todoistTask stored = true →
      (msTask.lastModifiedDateTime = none ∨ stored.todoist_modified_at = none) →
      MS.resolveConflict msTask todoistTask stored = MS.Winner.todoist) := by
  refine ⟨?_, ?_, ?_, ?_, ?_⟩
  · intro h1 h2
    simp [MS.resolveConflict, h1, h2]
  · intro h1 h2
    simp [MS.resolveConflict, h1, h2]
  · intro h1 h2
    simp [MS.resolveConflict, h1, h2]
  · intro a b h1 h2 hm ht
    constructor
    · intro hlt
      simp [MS.resolveConflict, h1, h2, hm, ht, jsGt, hlt]
    · intro hle
      simp [MS.resolveConflict, h1, h2, hm, ht, jsGt, Nat.not_lt.mpr hle]
  · intro h1 h2 h3
    rcases h3 with h3 | h3 <;> simp [MS.resolveConflict, h1, h2, h3]

/-- Fixture for the C2 witness: a snapshot whose markers both read 10. -/
def c2stored : MS.StoredRec :=
  { microsoft_id := "m1", microsoft_list_id := "L", todoist_id := some ("t1"),
    title := "Task", body := none, status := "notStarted", due_date := none,
    microsoft_modified_at := some (some 10), todoist_modified_at := some (some 10),
    applied_tags := [],
    content_hash := MS.generateContentHash ("Task") none ("notStarted") none }

/-- Fixture for the C2 witness: a remote task edited at time 20. -/
def c2ms : MS.MsTask :=
  { id := "m1", title := "Task renamed", body := none, status := "notStarted",
    dueDateTime := none, lastModifiedDateTime := some (some 20), createdBy := none }

/-- Fixture for the C2 witness: a mirrored task whose content hash no longer
matches the snapshot. -/
def c2td : MS.TodoistTask :=
  { id := "t1", content := "Task edited", description := "", isCompleted := false,
    dueDate := none, dueDatetime := none, labels := [] }

/-- Witness for C2: with both sides changed and the remote marker (20)
strictly newer than the stored mirrored-write marker (10), the resolver
picks the remote side. -/
theorem c2_witness : MS.resolveConflict c2ms c2td c2stored = MS.Winner.microsoft :=
  ((c2_resolveConflict c2ms c2td c2stored).2.2.2.1 20 10 rfl rfl rfl rfl).1 (by decide)

end TodoistBridge

namespace TodoistBridge

/-- Claim C5: for both change detectors (`hasGoogleTaskChanged` and
`hasMicrosoftTaskChanged`), when the remote marker and the stored marker
are both present and parseable the item is changed iff the remote marker
is strictly later; when either marker is missing the decision is the
field-by-field comparison of title, notes, status and due date (on the
normalised values the code compares — for the Microsoft detector via the
content hash, assuming the snapshot's stored hash is the hash of its own
stored fields, which every snapshot write establishes). -/
theorem c5_hasChanged :
    (∀ (g : G.GoogleTask) (r : G.StoredTask) (a b : Nat),
      g.updated = some (some a) → r.google_updated_at = some (some b) →
      (G.hasGoogleTaskChanged g r = true ↔ b < a)) ∧
    (∀ (g : G.GoogleTask) (r : G.StoredTask),
      (g.updated = none ∨ r.google_updated_at = none) →
      (G.hasGoogleTaskChanged g r = true ↔
        (g.title ≠ r.title ∨ jsOrNull g.notes ≠ r.notes ∨ g.status ≠ r.status ∨
          G.gdue g ≠ r.due_date))) ∧
    (∀ (t : MS.MsTask) (s : MS.StoredRec) (a b : Nat),
      t.lastModifiedDateTime = some (some a) → s.microsoft_modified_at = some (some b) →
      (MS.hasMicrosoftTaskChanged t s = true ↔ b < a)) ∧
    (∀ (t : MS.MsTask) (s : MS.StoredRec),
      (t.lastModifiedDateTime = none ∨ s.microsoft_modified_at = none) →
      s.content_hash = MS.generateContentHash s.title s.body s.status s.due_date →
      (MS.hasMicrosoftTaskChanged t s = true ↔
        (t.title ≠ s.title ∨ orEmpty t.body ≠ orEmpty s.body ∨ t.status ≠ s.status ∨
          orEmpty (MS.dueDatePart t) ≠ orEmpty s.due_date))) := by
  refine ⟨?_, ?_, ?_, ?_⟩
  · intro g r a b hu hs
    simp [G.hasGoogleTaskChanged, hu, hs, jsGt]
  · intro g r h
    have hfall : G.hasGoogleTaskChanged g r =
        (if g.title ≠ r.title then true
         else if jsOrNull g.notes ≠ r.notes then true
         else if g.status ≠ r.status then true
         else if G.gdue g ≠ r.due_date then true
         else false) := by
      rcases h with h | h
      · unfold G.hasGoogleTaskChanged
        rw [h]
      · unfold G.hasGoogleTaskChanged
        rw [h]
        rcases g.updated with _ | u <;> rfl
    rw [hfall]
    split_ifs with h1 h2 h3 h4 <;> simp_all
  · intro t s a b hu hs
    simp [MS.hasMicrosoftTaskChanged, hu, hs, jsGt]
  · intro t s h hh
    have hfall : MS.hasMicrosoftTaskChanged t s =
        (MS.generateContentHash t.title t.body t.status (MS.dueDatePart t)
          ≠ s.content_hash : Bool) := by
      rcases h with h | h
      · unfold MS.hasMicrosoftTaskChanged
        rw [h]
      · unfold MS.hasMicrosoftTaskChanged
        rw [h]
        rcases t.lastModifiedDateTime with _ | u <;> rfl
    rw [hfall, hh]
    simp only [decide_eq_true_eq, ne_eq, MS.generateContentHash, MS.ContentHash.mk.injEq,
      not_and]
    tauto

end TodoistBridge

namespace TodoistBridge

/-- Fixture for the C5 witness: a Google task last modified at time 5. -/
def c5g : G.GoogleTask :=
  { id := "g1", title := "Call mom", notes := none, status := "needsAction",
    due := none, parent := none, updated := some (some 5) }

/-- Fixture for the C5 witness: its snapshot, last seen at time 3. -/
def c5r : G.StoredTask :=
  { google_id := "g1", todoist_id := some ("t9"), task_list_id := "tl",
    title := "Call mom", notes := none, status := "needsAction", due_date := none,
    parent_google_id := none, parent_todoist_id := none,
    google_updated_at := some (some 3), applied_tags := none }

/-- Witness for C5: with both markers parseable and the remote one strictly
later (5 > 3), the detector reports a change. -/
theorem c5_witness : G.hasGoogleTaskChanged c5g c5r = true :=
  (c5_hasChanged.1 c5g c5r 5 3 rfl rfl).mpr (by decide)

end TodoistBridge

namespace TodoistBridge.MS

/-- The JavaScript coalescing in `syncCompletionStatus`: a missing
modification marker is read as timestamp `0`; an unparseable one stays
`NaN`. -/
def coalesceTs : Option DateVal → DateVal
  | some v => v
  | none => some 0

/-- The single completion/reopen call `syncCompletionStatus` pushes to the
losing side: the remote (Microsoft) side wins — and Todoist receives the
call — exactly when its coalesced timestamp is `>=` the stored
mirrored-write timestamp. -/
def completionWinnerCall (msItem : MsTask) (todoistTask : TodoistTask)
    (stored : StoredRec) (listId : String) : Call :=
  if jsGe (coalesceTs msItem.lastModifiedDateTime) (coalesceTs stored.todoist_modified_at) then
    (if msCompleted msItem then Call.tdComplete todoistTask.id
     else Call.tdReopen todoistTask.id)
  else
    (if todoistTask.isCompleted then Call.msComplete listId msItem.id
     else Call.msReopen listId msItem.id)

/-- The snapshot columns `syncCompletionStatus` rewrites. -/
def completionSnapshotUpdate (msItem : MsTask) (now : Nat) (r : StoredRec) : StoredRec :=
  { r with status := if msCompleted msItem then "completed" else "notStarted",
           microsoft_modified_at := msItem.lastModifiedDateTime,
           todoist_modified_at := some (some now) }

end TodoistBridge.MS

namespace TodoistBridge

/-- Claim C1 (counterexample): with the remote timestamp equal to the
stored mirrored-write timestamp (hence not newer), the mirrored side is
required by the claim to win and the completion call to go to the remote
side; the code instead lets the remote side win and pushes the completion
call to the mirrored service (`completeTask` on the Todoist task). -/
theorem c1_counterexample :
    MS.completionDiffers
      ({ id := "m1", title := "Task", body := none, status := "completed",
         dueDateTime := none, lastModifiedDateTime := some (some 5), createdBy := none })
      ({ id := "t1", content := "Task", description := "", isCompleted := false,
         dueDate := none, dueDatetime := none, labels := [] }) = true ∧
    jsGt (some 5) (some 5) = false ∧
    (MS.syncExistingItem
      ({ id := "m1", title := "Task", body := none, status := "completed",
         dueDateTime := none, lastModifiedDateTime := some (some 5), createdBy := none })
      ({ id := "t1", content := "Task", description := "", isCompleted := false,
         dueDate := none, dueDatetime := none, labels := [] })
      ({ microsoft_id := "m1", microsoft_list_id := "L", todoist_id := some ("t1"),
         title := "Task", body := none, status := "notStarted", due_date := none,
         microsoft_modified_at := some (some 5), todoist_modified_at := some (some 5),
         applied_tags := [],
         content_hash := MS.generateContentHash ("Task") none ("notStarted") none })
      ("L") [] allOk 9
      ({ storage := [], calls := [], clock := 0, res := MS.emptyResult })).2.calls
      = [MS.Call.tdComplete ("t1")] := by
  exact ⟨rfl, rfl, rfl⟩

/-- Claim C1 (amended): in the bi-directional reconciler, a completion
mismatch is resolved before content reconciliation and content
reconciliation is skipped for the pair that cycle (the pair's only
external call is the single completion/reopen call) and the snapshot is
updated; but the winner is decided by `msModified >= todoistModified` on
the coalesced timestamps (a missing marker reads as 0), so the remote
side wins ties and the both-markers-missing case, and the mirrored side
wins only when its stored mirrored-write timestamp is strictly newer than
the remote timestamp (or the remote timestamp is unparseable). -/
theorem c1_completion_priority (msItem : MS.MsTask) (todoistTask : MS.TodoistTask)
    (stored : MS.StoredRec) (listId : String) (tags : List String) (now : Nat)
    (s : MS.EngState)
    (h : MS.completionDiffers msItem todoistTask = true) :
    (MS.syncExistingItem msItem todoistTask stored listId tags allOk now s).1 = true ∧
    (MS.syncExistingItem msItem todoistTask stored listId tags allOk now s).2.calls
      = s.calls ++ [MS.completionWinnerCall msItem todoistTask stored listId] ∧
    (MS.syncExistingItem msItem todoistTask stored listId tags allOk now s).2.storage
      = MS.updateItem stored.microsoft_id (MS.completionSnapshotUpdate msItem now)
          s.storage ∧
    (MS.syncExistingItem msItem todoistTask stored listId tags allOk now s).2.res.errors
      = s.res.errors := by
  have hcomp : MS.syncExistingItem msItem todoistTask stored listId tags allOk now s
      = MS.syncCompletionStatus msItem todoistTask stored listId allOk now s := by
    unfold MS.syncExistingItem
    rw [h]
    rfl
  rw [hcomp]
  unfold MS.syncCompletionStatus MS.completionWinnerCall MS.completionSnapshotUpdate
  rcases hts : msItem.lastModifiedDateTime with _ | v <;>
    rcases hss : stored.todoist_modified_at with _ | w <;>
      simp only [MS.coalesceTs, hts, hss, MS.emit, allOk] <;>
        split_ifs <;>
          simp [MS.incCompleted, MS.incUpdated, MS.incCompletedInSource,
            MS.incUpdatedInSource, MS.updateItem]

end TodoistBridge

namespace TodoistBridge

/-- Fixture for the C1 witness: a remote task, not completed, modified at 5. -/
def c1wMs : MS.MsTask :=
  { id := "m2", title := "Pay rent", body := none, status := "notStarted",
    dueDateTime := none, lastModifiedDateTime := some (some 5), createdBy := none }

/-- Fixture for the C1 witness: the mirrored task, completed by the user. -/
def c1wTd : MS.TodoistTask :=
  { id := "t2", content := "Pay rent", description := "", isCompleted := true,
    dueDate := none, dueDatetime := none, labels := [] }

/-- Fixture for the C1 witness: the snapshot, whose mirrored-write marker
(50) is strictly newer than the remote marker (5). -/
def c1wStored : MS.StoredRec :=
  { microsoft_id := "m2", microsoft_list_id := "L", todoist_id := some ("t2"),
    title := "Pay rent", body := none, status := "notStarted", due_date := none,
    microsoft_modified_at := some (some 5), todoist_modified_at := some (some 50),
    applied_tags := [],
    content_hash := MS.generateContentHash ("Pay rent") none ("notStarted") none }

/-- Fixture for the C1 witness: the engine state holding that snapshot. -/
def c1wState : MS.EngState :=
  { storage := [c1wStored], calls := [], clock := 0, res := MS.emptyResult }

/-- Witness for C1 (amended): at this input the completion mismatch is
resolved with a single call — the mirrored-write marker is newer, so the
completion is pushed to the remote side (`msComplete`) — and the snapshot
is rewritten. -/
theorem c1_witness :
    (MS.syncExistingItem c1wMs c1wTd c1wStored ("L") [] allOk 9 c1wState).2.calls
      = c1wState.calls ++ [MS.completionWinnerCall c1wMs c1wTd c1wStored ("L")] ∧
    MS.completionWinnerCall c1wMs c1wTd c1wStored ("L")
      = MS.Call.msComplete ("L") ("m2") :=
  ⟨(c1_completion_priority c1wMs c1wTd c1wStored ("L") [] 9 c1wState rfl).2.1, rfl⟩

/-- Claim C10: in the remote-driven pass, a remote item whose snapshot row
exists but records a null mirrored ID is skipped silently: the loop
iteration makes no external call, changes no snapshot row, raises
nothing, and leaves every tally untouched (the whole engine state is
returned unchanged). -/
theorem c10_null_mirrored_id_skipped (storedItems : List MS.StoredRec)
    (tdTasks : List MS.TodoistTask) (listId projectId : String) (tags : List String)
    (env : Env) (now : Nat) (msItem : MS.MsTask) (seenTd : List String)
    (s : MS.EngState) (r : MS.StoredRec)
    (hfind : MS.findStoredByMsId storedItems msItem.id = some r)
    (hnull : r.todoist_id = none) :
    MS.phase1Step storedItems tdTasks listId projectId tags env now msItem seenTd s
      = (true, seenTd, s) := by
  unfold MS.phase1Step
  rw [hfind]
  simp [truthyStr, hnull]

/-- Fixture for the C10 witness: a snapshot row with a null mirrored ID. -/
def c10stored : MS.StoredRec :=
  { microsoft_id := "m3", microsoft_list_id := "L", todoist_id := none,
    title := "Orphan", body := none, status := "notStarted", due_date := none,
    microsoft_modified_at := none, todoist_modified_at := none,
    applied_tags := [],
    content_hash := MS.generateContentHash ("Orphan") none ("notStarted") none }

/-- Fixture for the C10 witness: the matching remote item. -/
def c10ms : MS.MsTask :=
  { id := "m3", title := "Orphan", body := none, status := "notStarted",
    dueDateTime := none, lastModifiedDateTime := none, createdBy := none }

/-- Fixture for the C10 witness: the engine state holding that snapshot. -/
def c10state : MS.EngState :=
  { storage := [c10stored], calls := [], clock := 0, res := MS.emptyResult }

/-- Witness for C10: the loop iteration for the null-mirrored-ID item is
the identity on the engine state. -/
theorem c10_witness :
    MS.phase1Step [c10stored] [] ("L") ("P") [] allOk 9 c10ms [] c10state
      = (true, [], c10state) :=
  c10_null_mirrored_id_skipped [c10stored] [] ("L") ("P") [] allOk 9 c10ms [] c10state
    c10stored rfl rfl

end TodoistBridge

namespace TodoistBridge

/-- Dropping an item attributed to another user from the remote fetch does
not change the assignment filter's output. -/
theorem filterByAssignment_drops (uid creator : String) (i : MS.MsTask)
    (pre post : List MS.MsTask) (hcb : i.createdBy = some creator)
    (hne : creator ≠ uid) :
    MS.filterByAssignment true (some uid) (pre ++ i :: post)
      = MS.filterByAssignment true (some uid) (pre ++ post) := by
  unfold MS.filterByAssignment
  simp only [Bool.not_true, Bool.false_eq_true, if_false]
  rw [List.filter_append, List.filter_append, List.filter_cons]
  simp [hcb, hne]

/-- Fixture for the C3 counterexample: a remote item attributed to a user
other than the authenticated identity. -/
def c3item : MS.MsTask :=
  { id := "m1", title := "Shared task", body := none, status := "notStarted",
    dueDateTime := none, lastModifiedDateTime := none, createdBy := some ("other") }

/-- Fixture for the C3 counterexample: the mirrored Todoist task previously
created for that item. -/
def c3td : MS.TodoistTask :=
  { id := "t1", content := "Shared task", description := "", isCompleted := false,
    dueDate := none, dueDatetime := none, labels := [] }

/-- Fixture for the C3 counterexample: the snapshot row linking the two. -/
def c3stored : MS.StoredRec :=
  { microsoft_id := "m1", microsoft_list_id := "L", todoist_id := some ("t1"),
    title := "Shared task", body := none, status := "notStarted", due_date := none,
    microsoft_modified_at := none, todoist_modified_at := none, applied_tags := [],
    content_hash := MS.generateContentHash ("Shared task") none ("notStarted") none }

/-- Fixture for the C3 counterexample: the engine state holding that
snapshot. -/
def c3state : MS.EngState :=
  { storage := [c3stored], calls := [], clock := 0, res := MS.emptyResult }

/-- Claim C3 (counterexample): with assignment filtering configured and the
identity known, a remote item attributed to another user that already has
a snapshot row and a surviving mirrored counterpart DOES cause a delete
call to the mirrored service: the cycle emits exactly a `deleteTask` on
its Todoist task and counts `deleted = 1` (the filtered item counts as
remotely absent in orphan cleanup). -/
theorem c3_counterexample :
    c3item.createdBy = some ("other") ∧
    (MS.syncList ("L") ("P") [] true (some ("me")) false [c3item] [c3td]
        allOk 9 c3state).2.calls = [MS.Call.tdDelete ("t1")] ∧
    (MS.syncList ("L") ("P") [] true (some ("me")) false [c3item] [c3td]
        allOk 9 c3state).2.res.deleted = 1 :=
  ⟨rfl, rfl, rfl⟩

/-- Claim C3 (amended): when assignment filtering is configured and the
identity is known, a remote item attributed to a different user is
dropped from consideration entirely — the whole reconciliation cycle
behaves exactly as if the item were absent from the remote fetch.  In
particular a new such item (no snapshot row) is never created, updated or
deleted on the mirrored side; but a previously-synced such item is
treated as remotely deleted, so orphan cleanup deletes its mirrored
counterpart.  Items with no attribution or attributed to the identity
pass through the filter. -/
theorem c3_filtered_item_invisible (listId projectId : String) (tags : List String)
    (uid : String) (assignToSelf : Bool) (pre post : List MS.MsTask) (i : MS.MsTask)
    (creator : String) (tdTasks : List MS.TodoistTask) (env : Env) (now : Nat)
    (s0 : MS.EngState) (hcb : i.createdBy = some creator) (hne : creator ≠ uid) :
    MS.syncList listId projectId tags true (some uid) assignToSelf (pre ++ i :: post)
        tdTasks env now s0
      = MS.syncList listId projectId tags true (some uid) assignToSelf (pre ++ post)
        tdTasks env now s0 := by
  unfold MS.syncList
  rw [filterByAssignment_drops uid creator i pre post hcb hne]

/-- Witness for C3 (amended): a cycle whose remote fetch contains a
new other-user item equals the cycle without it — no call at all is made
for the filtered new item (empty store, no mirrored tasks: both runs make
no calls and report empty tallies). -/
theorem c3_witness :
    MS.syncList ("L") ("P") [] true (some ("me")) false ([] ++ c3item :: []) []
        allOk 9 ({ storage := [], calls := [], clock := 0, res := MS.emptyResult })
      = MS.syncList ("L") ("P") [] true (some ("me")) false ([] ++ []) []
        allOk 9 ({ storage := [], calls := [], clock := 0, res := MS.emptyResult }) :=
  c3_filtered_item_invisible ("L") ("P") [] ("me") false [] [] c3item ("other") []
    allOk 9 ({ storage := [], calls := [], clock := 0, res := MS.emptyResult })
    rfl (by decide)

end TodoistBridge

namespace TodoistBridge

/-- Fixture for the C8 counterexample: an environment in which the first
external call of the pass throws and every later one succeeds. -/
def c8env : Env := fun k => k != 0

/-- Fixture for the C8 counterexample: first new remote item (its create
will fail). -/
def c8m1 : MS.MsTask :=
  { id := "m1", title := "First", body := none, status := "notStarted",
    dueDateTime := none, lastModifiedDateTime := none, createdBy := none }

/-- Fixture for the C8 counterexample: second new remote item (its create
will succeed). -/
def c8m2 : MS.MsTask :=
  { id := "m2", title := "Second", body := none, status := "notStarted",
    dueDateTime := none, lastModifiedDateTime := none, createdBy := none }

/-- Fixture for the C8 counterexample: the single list mapping. -/
def c8map : MS.MappingInput :=
  { listId := "L", projectId := "P", tags := [], allMsItems := [c8m1, c8m2],
    tdTasks := [] }

/-- Fixture for the C8 counterexample: an empty snapshot store. -/
def c8s0 : MS.EngState :=
  { storage := [], calls := [], clock := 0, res := MS.emptyResult }

/-- Claim C8 (counterexample): one per-item create failure (caught at the
call site — the pass continues and still creates the next item,
`created = 1`, with no exception escaping any per-item guard) already
marks the bi-directional result `success: false`, contradicting the claim
that only a pass-level failure does. -/
theorem c8_counterexample :
    (MS.syncBidirectional false none false [c8map] c8env 9 c8s0).res.success = false ∧
    (MS.syncBidirectional false none false [c8map] c8env 9 c8s0).res.errors.length = 1 ∧
    (MS.syncBidirectional false none false [c8map] c8env 9 c8s0).res.created = 1 :=
  ⟨rfl, rfl, rfl⟩

/-- The engine state after a create call that threw: the call is traced,
the clock advances, one error is appended; storage and tallies are
untouched. -/
def failedCreateState (msItem : MS.MsTask) (projectId : String) (tags : List String)
    (s : MS.EngState) : MS.EngState :=
  MS.pushErr (String.append ("create-todoist-failed:") msItem.title)
    { s with
      calls := s.calls ++ [MS.Call.tdCreate (MS.mapMicrosoftToTodoistCreate msItem projectId tags)],
      clock := s.clock + 1 }

/-- Claim C8 (amended): in the bi-directional engine a per-item
create/update failure is caught at the call site and appended as a string
to the pass's error list (the failed create changes nothing but the call
trace, the clock, and the error list), the remote-driven loop continues
past it (a new item's iteration never raises), and the accumulated
tallies are always returned; but `success` is simply whether the error
list is empty, so per-item and list-level failures mark
`success: false` alike, not only pass-level ones. -/
theorem c8_error_handling :
    (∀ (exclude : Bool) (uid : Option String) (assignToSelf : Bool)
      (maps : List MS.MappingInput) (env : Env) (now : Nat) (s0 : MS.EngState),
      (MS.syncBidirectional exclude uid assignToSelf maps env now s0).res.success
        = (MS.syncBidirectional exclude uid assignToSelf maps env now s0).res.errors.isEmpty) ∧
    (∀ (msItem : MS.MsTask) (listId projectId : String) (tags : List String)
      (env : Env) (now : Nat) (s : MS.EngState), env s.clock = false →
      MS.createInTodoist msItem listId projectId tags env now s
        = failedCreateState msItem projectId tags s) ∧
    (∀ (storedItems : List MS.StoredRec) (tdTasks : List MS.TodoistTask)
      (listId projectId : String) (tags : List String) (env : Env) (now : Nat)
      (msItem : MS.MsTask) (seenTd : List String) (s : MS.EngState),
      MS.findStoredByMsId storedItems msItem.id = none →
      (MS.phase1Step storedItems tdTasks listId projectId tags env now msItem
        seenTd s).1 = true) := by
  refine ⟨?_, ?_, ?_⟩
  · intro exclude uid assignToSelf maps env now s0
    rfl
  · intro msItem listId projectId tags env now s h
    simp [MS.createInTodoist, MS.emit, h, failedCreateState]
  · intro storedItems tdTasks listId projectId tags env now msItem seenTd s hfind
    unfold MS.phase1Step
    rw [hfind]

/-- Witness for C8 (amended): applying the per-item-failure clause at a
concrete input — the failing create appends exactly one error and leaves
storage and tallies untouched. -/
theorem c8_witness :
    MS.createInTodoist c8m1 ("L") ("P") [] (fun _ => false) 9 c8s0
      = failedCreateState c8m1 ("P") [] c8s0 :=
  (c8_error_handling.2.1) c8m1 ("L") ("P") [] (fun _ => false) 9 c8s0 rfl

end TodoistBridge

namespace TodoistBridge

/-- Negation of `any` over a cons, reassociated. -/
theorem notAnyCons {α : Type} (f : α → Bool) (q : α) (rest : List α) :
    (!(q :: rest).any f) = ((!rest.any f) && !f q) := by
  simp [List.any_cons, Bool.not_or, Bool.and_comm]

/-- `decide (a ≠ b)` is the negated flipped `BEq` test on strings. -/
theorem decide_ne_eq_not_beq (a b : String) : (decide (a ≠ b)) = !(b == a) := by
  by_cases h : a = b
  · subst h
    simp
  · simp [h, Ne.symm h]

/-- The deletion pass removes from the live store exactly the rows whose
Google id matches an unseen pre-fetched row, whatever the environment. -/
theorem deletionPass_storage (seen : List String) (env : Env)
    (rows : List G.StoredTask) (s : G.GState) (stats : G.GStats) :
    (G.deletionPass seen env rows s stats).1.storage
      = s.storage.filter (fun r => !(rows.any (fun q =>
          q.google_id == r.google_id && !(seen.contains q.google_id)))) := by
  induction rows generalizing s stats with
  | nil => simp [G.deletionPass]
  | cons q rest ih =>
    unfold G.deletionPass
    cases hseen : seen.contains q.google_id with
    | true =>
      simp only [if_pos rfl, if_true]
      rw [ih]
      apply List.filter_congr
      intro r _
      rw [notAnyCons]
      simp only [hseen, Bool.not_true, Bool.and_false, Bool.not_false, Bool.and_true]
    | false =>
      simp only [Bool.false_eq_true, if_false]
      rw [ih]
      cases htr : truthyStr q.todoist_id with
      | true =>
        simp only [htr, if_true, G.emitG]
        rw [G.gDeleteByGid, List.filter_filter]
        apply List.filter_congr
        intro r _
        rw [notAnyCons, decide_ne_eq_not_beq]
        simp only [hseen, Bool.not_false, Bool.and_true]
      | false =>
        simp only [htr, Bool.false_eq_true, if_false]
        rw [G.gDeleteByGid, List.filter_filter]
        apply List.filter_congr
        intro r _
        rw [notAnyCons, decide_ne_eq_not_beq]
        simp only [hseen, Bool.not_false, Bool.and_true]

/-- The deletion pass attempts exactly one mirrored delete per unseen row
with a recorded mirrored id, in order, whatever the environment (a failed
delete is logged and the pass continues). -/
theorem deletionPass_calls (seen : List String) (env : Env)
    (rows : List G.StoredTask) (s : G.GState) (stats : G.GStats) :
    (G.deletionPass seen env rows s stats).1.calls
      = s.calls ++ (rows.filter (fun q =>
          !(seen.contains q.google_id) && truthyStr q.todoist_id)).map
          (fun q => G.GCall.tdDelete (orEmpty q.todoist_id)) := by
  induction rows generalizing s stats with
  | nil => simp [G.deletionPass]
  | cons q rest ih =>
    unfold G.deletionPass
    cases hseen : seen.contains q.google_id with
    | true =>
      simp only [if_pos rfl, if_true]
      rw [ih, List.filter_cons]
      simp only [hseen, Bool.not_true, Bool.false_and, Bool.false_eq_true, if_false]
    | false =>
      simp only [Bool.false_eq_true, if_false]
      cases htr : truthyStr q.todoist_id with
      | true =>
        simp only [htr, if_true, G.emitG]
        rw [ih, List.filter_cons]
        simp only [hseen, htr, Bool.not_false, Bool.true_and, if_true, List.map_cons,
          List.append_assoc, List.singleton_append]
      | false =>
        simp only [htr, Bool.false_eq_true, if_false]
        rw [ih, List.filter_cons]
        simp only [hseen, htr, Bool.not_false, Bool.true_and, Bool.false_eq_true, if_false]

/-- The deletion pass bumps `deleted` once per unseen pre-fetched row,
whatever the environment. -/
theorem deletionPass_deleted (seen : List String) (env : Env)
    (rows : List G.StoredTask) (s : G.GState) (stats : G.GStats) :
    (G.deletionPass seen env rows s stats).2.deleted
      = stats.deleted + (rows.filter (fun q => !(seen.contains q.google_id))).length := by
  induction rows generalizing s stats with
  | nil => simp [G.deletionPass]
  | cons q rest ih =>
    unfold G.deletionPass
    cases hseen : seen.contains q.google_id with
    | true =>
      simp only [if_pos rfl, if_true]
      rw [ih, List.filter_cons]
      simp only [hseen, Bool.not_true, Bool.false_eq_true, if_false]
    | false =>
      simp only [Bool.false_eq_true, if_false]
      cases htr : truthyStr q.todoist_id with
      | true =>
        simp only [htr, if_true, G.emitG]
        rw [ih, List.filter_cons]
        simp only [hseen, Bool.not_false, if_true, List.length_cons, G.incDeleted]
        omega
      | false =>
        simp only [htr, Bool.false_eq_true, if_false]
        rw [ih, List.filter_cons]
        simp only [hseen, Bool.not_false, if_true, List.length_cons, G.incDeleted]
        omega

/-- Claim C6: in the one-way deletion pass, every pre-fetched snapshot row
whose native ID is absent from the current fetch gets (a) a mirrored
delete call exactly when a mirrored ID is recorded — emitted whatever the
environment, so a failing delete neither aborts the pass nor changes the
other effects — (b) unconditional removal of its snapshot row, and (c) a
single `deleted` increment; rows whose native ID was seen are untouched. -/
theorem c6_deletion_pass (seen : List String) (env : Env)
    (rows : List G.StoredTask) (s : G.GState) (stats : G.GStats) :
    (G.deletionPass seen env rows s stats).1.storage
      = s.storage.filter (fun r => !(rows.any (fun q =>
          q.google_id == r.google_id && !(seen.contains q.google_id)))) ∧
    (G.deletionPass seen env rows s stats).1.calls
      = s.calls ++ (rows.filter (fun q =>
          !(seen.contains q.google_id) && truthyStr q.todoist_id)).map
          (fun q => G.GCall.tdDelete (orEmpty q.todoist_id)) ∧
    (G.deletionPass seen env rows s stats).2.deleted
      = stats.deleted + (rows.filter (fun q => !(seen.contains q.google_id))).length :=
  ⟨deletionPass_storage seen env rows s stats,
   deletionPass_calls seen env rows s stats,
   deletionPass_deleted seen env rows s stats⟩

end TodoistBridge

namespace TodoistBridge

/-- A task whose content fields and modification marker match its snapshot
is reported unchanged by the detector. -/
theorem hasGoogleTaskChanged_eq_false (g : G.GoogleTask) (r : G.StoredTask)
    (htitle : g.title = r.title) (hnotes : jsOrNull g.notes = r.notes)
    (hstatus : g.status = r.status) (hdue : G.gdue g = r.due_date)
    (hupd : g.updated = r.google_updated_at) :
    G.hasGoogleTaskChanged g r = false := by
  unfold G.hasGoogleTaskChanged
  rcases hu : r.google_updated_at with _ | v
  · rw [hupd, hu]
    simp [htitle, hnotes, hstatus, hdue]
  · rw [hupd, hu]
    simp [jsGt_self_eq_false v]

/-- The outcome of a tag-only reconciliation of one item: exactly one
label-update call, the snapshot rewrite, and a single `tagsUpdated`
bump. -/
def tagOnlyResult (g : G.GoogleTask) (parentTodoistId : Option String)
    (tags : List String) (tid : String) (s : G.GState) (stats : G.GStats) :
    G.GState × G.GStats :=
  ({ s with storage := G.gUpdateByGid g.id (G.snapshotOf g parentTodoistId tags) s.storage,
            calls := s.calls ++ [G.GCall.tdUpdateLabels tid tags],
            clock := s.clock + 1 },
   G.incTagsUpdated stats)

/-- Claim C7: when a snapshot's stored applied-tag set differs from the
configured tag set while every content field and the modification marker
are unchanged, the one-way pass issues exactly one label-update call for
the item, bumps `tagsUpdated` by one, and does not touch `updated` (nor
any other tally — the stats delta is exactly `incTagsUpdated`). -/
theorem c7_tag_only_update (g : G.GoogleTask) (storedMap : List G.StoredTask)
    (r : G.StoredTask) (taskListId googleListId projectId tid : String)
    (tags : List String) (parentTodoistId : Option String) (s : G.GState)
    (stats : G.GStats)
    (hfind : G.gFindByGid storedMap g.id = some r)
    (htid : r.todoist_id = some tid) (htid2 : tid ≠ "")
    (htitle : g.title = r.title) (hnotes : jsOrNull g.notes = r.notes)
    (hstatus : g.status = r.status) (hdue : G.gdue g = r.due_date)
    (hupd : g.updated = r.google_updated_at)
    (htags : tagsEqual (parseStoredTags r.applied_tags) tags = false) :
    G.syncTask g taskListId googleListId projectId storedMap false tags parentTodoistId
        allOk s stats
      = tagOnlyResult g parentTodoistId tags tid s stats := by
  have hch : G.hasGoogleTaskChanged g r = false :=
    hasGoogleTaskChanged_eq_false g r htitle hnotes hstatus hdue hupd
  have htr : truthyStr r.todoist_id = true := by
    rw [htid]
    simp [truthyStr, htid2]
  unfold G.syncTask
  rw [hfind]
  simp [hch, htags, htr, htid, hstatus, G.emitG, allOk, orEmpty, tagOnlyResult,
    truthyStr, htid2, G.updateBlock]

/-- Fixture for the C7 witness: a Google task with unchanged content. -/
def c7g : G.GoogleTask :=
  { id := "g7", title := "Water plants", notes := none, status := "needsAction",
    due := none, parent := none, updated := some (some 4) }

/-- Fixture for the C7 witness: its snapshot, carrying a stale tag set. -/
def c7r : G.StoredTask :=
  { google_id := "g7", todoist_id := some ("t7"), task_list_id := "tl",
    title := "Water plants", notes := none, status := "needsAction", due_date := none,
    parent_google_id := none, parent_todoist_id := none,
    google_updated_at := some (some 4), applied_tags := some (["old"]) }

/-- Fixture for the C7 witness: the engine state holding that snapshot. -/
def c7state : G.GState := { storage := [c7r], calls := [], clock := 0 }

/-- Witness for C7: at this input the pass makes exactly the one
label-update call and bumps only `tagsUpdated`. -/
theorem c7_witness :
    G.syncTask c7g ("tl") ("gl") ("p") [c7r] false (["new"]) none allOk c7state
        G.zeroStats
      = tagOnlyResult c7g none (["new"]) ("t7") c7state G.zeroStats :=
  c7_tag_only_update c7g [c7r] c7r ("tl") ("gl") ("p") ("t7") (["new"]) none c7state
    G.zeroStats rfl rfl (by decide) rfl rfl rfl rfl rfl (by decide)

end TodoistBridge

namespace TodoistBridge

/-- `tagsEqual` is reflexive. -/
theorem tagsEqual_refl (l : List String) : tagsEqual l l = true := by
  simp [tagsEqual]

/-- Round trip of the tag column written by `syncTask`. -/
theorem parseStoredTags_write (tags : List String) :
    parseStoredTags (if tags.length > 0 then some tags else Option.none) = tags := by
  by_cases h : tags.length > 0
  · simp [h, parseStoredTags]
  · have : tags = [] := List.length_eq_zero.mp (Nat.eq_zero_of_not_pos h)
    simp [h, parseStoredTags, this]

/-- The snapshot row a fetched task leaves behind agrees with it: the
change detector reports no change and the stored tag set equals the
configured one. -/
def agreesWith (tags : List String) (g : G.GoogleTask) (r : G.StoredTask) : Prop :=
  G.hasGoogleTaskChanged g r = false ∧
    tagsEqual (parseStoredTags r.applied_tags) tags = true

/-- `snapshotOf` keeps the row's Google id. -/
theorem snapshotOf_google_id (g : G.GoogleTask) (ptid : Option String)
    (tags : List String) (r : G.StoredTask) :
    (G.snapshotOf g ptid tags r).google_id = r.google_id := rfl

/-- A row just written by `snapshotOf` agrees with the task it mirrors. -/
theorem agreesWith_snapshotOf (tags : List String) (g : G.GoogleTask)
    (ptid : Option String) (r : G.StoredTask) :
    agreesWith tags g (G.snapshotOf g ptid tags r) := by
  constructor
  · exact hasGoogleTaskChanged_eq_false g _ rfl rfl rfl rfl rfl
  · rw [show (G.snapshotOf g ptid tags r).applied_tags
        = (if tags.length > 0 then some tags else Option.none) from rfl]
    rw [parseStoredTags_write]
    exact tagsEqual_refl tags

/-- A failed id lookup means no row carries the id. -/
theorem gFindByGid_eq_none (l : List G.StoredTask) (q : String)
    (h : G.gFindByGid l q = none) : ∀ r ∈ l, r.google_id ≠ q := by
  intro r hr
  have := List.find?_eq_none.mp h r hr
  simpa using this

/-- Appending a fresh row is invisible to lookups of other ids. -/
theorem gFindByGid_append_other (l : List G.StoredTask) (row : G.StoredTask)
    (q : String) (h : row.google_id ≠ q) :
    G.gFindByGid (l ++ [row]) q = G.gFindByGid l q := by
  unfold G.gFindByGid
  rw [List.find?_append]
  have hrow : List.find? (fun r => r.google_id == q) [row] = none := by
    rw [List.find?_cons_of_neg _ (by simpa using h), List.find?_nil]
  rw [hrow, Option.or_none]

/-- Appending a row with the sought id to a store that lacks it makes the
lookup return that row. -/
theorem gFindByGid_append_self (l : List G.StoredTask) (row : G.StoredTask)
    (q : String) (hl : G.gFindByGid l q = none) (hrow : row.google_id = q) :
    G.gFindByGid (l ++ [row]) q = some row := by
  unfold G.gFindByGid at hl ⊢
  rw [List.find?_append, hl, Option.none_or]
  rw [List.find?_cons_of_pos _ (by simpa using hrow)]

/-- Updating the row with one id leaves lookups of other ids unchanged
(the update preserves the Google id). -/
theorem gFindByGid_update_other (l : List G.StoredTask) (gid : String)
    (f : G.StoredTask → G.StoredTask) (hf : ∀ x, (f x).google_id = x.google_id)
    (q : String) (h : gid ≠ q) :
    G.gFindByGid (G.gUpdateByGid gid f l) q = G.gFindByGid l q := by
  induction l with
  | nil => rfl
  | cons x xs ih =>
    unfold G.gFindByGid G.gUpdateByGid at ih ⊢
    rw [List.map_cons]
    by_cases hx : (x.google_id == gid) = true
    · have hxg : x.google_id = gid := by simpa using hx
      rw [if_pos hx]
      have h1 : ¬ (((f x).google_id == q) = true) := by
        simp [hf x, hxg, h]
      have h2 : ¬ ((x.google_id == q) = true) := by
        simp [hxg, h]
      rw [@List.find?_cons_of_neg _ (fun r => r.google_id == q) (f x) _ h1,
        @List.find?_cons_of_neg _ (fun r => r.google_id == q) x _ h2]
      exact ih
    · rw [if_neg hx]
      by_cases hq : (x.google_id == q) = true
      · rw [@List.find?_cons_of_pos _ (fun r => r.google_id == q) x _ hq,
          @List.find?_cons_of_pos _ (fun r => r.google_id == q) x _ hq]
      · rw [@List.find?_cons_of_neg _ (fun r => r.google_id == q) x _ hq,
          @List.find?_cons_of_neg _ (fun r => r.google_id == q) x _ hq]
        exact ih

/-- Updating the row with the sought id rewrites exactly the row the
lookup returns. -/
theorem gFindByGid_update_self (l : List G.StoredTask) (gid : String)
    (f : G.StoredTask → G.StoredTask) (hf : ∀ x, (f x).google_id = x.google_id)
    (r : G.StoredTask) (h : G.gFindByGid l gid = some r) :
    G.gFindByGid (G.gUpdateByGid gid f l) gid = some (f r) := by
  induction l with
  | nil => simp [G.gFindByGid] at h
  | cons x xs ih =>
    unfold G.gFindByGid at ih h ⊢
    unfold G.gUpdateByGid
    rw [List.map_cons]
    by_cases hx : (x.google_id == gid) = true
    · rw [@List.find?_cons_of_pos _ (fun r => r.google_id == gid) x _ hx] at h
      rw [if_pos hx]
      have hfx : ((f x).google_id == gid) = true := by
        rw [hf x]
        exact hx
      rw [@List.find?_cons_of_pos _ (fun r => r.google_id == gid) (f x) _ hfx]
      simp only [Option.some.injEq] at h
      rw [h]
    · rw [@List.find?_cons_of_neg _ (fun r => r.google_id == gid) x _ hx] at h
      rw [if_neg hx, @List.find?_cons_of_neg _ (fun r => r.google_id == gid) x _ hx]
      exact ih h

/-- The id column is untouched by `gUpdateByGid` when the update preserves
ids. -/
theorem gUpdateByGid_map_ids (l : List G.StoredTask) (gid : String)
    (f : G.StoredTask → G.StoredTask) (hf : ∀ x, (f x).google_id = x.google_id) :
    (G.gUpdateByGid gid f l).map (fun r => r.google_id)
      = l.map (fun r => r.google_id) := by
  induction l with
  | nil => rfl
  | cons x xs ih =>
    unfold G.gUpdateByGid at ih ⊢
    rw [List.map_cons, List.map_cons, List.map_cons]
    by_cases hx : (x.google_id == gid) = true
    · rw [if_pos hx, hf x, ih]
    · rw [if_neg hx, ih]

/-- Every row of an updated store is the update of a matching row or an
untouched old row. -/
theorem gUpdateByGid_mem (l : List G.StoredTask) (gid : String)
    (f : G.StoredTask → G.StoredTask) (hf : ∀ x, (f x).google_id = x.google_id)
    (r : G.StoredTask) (h : r ∈ G.gUpdateByGid gid f l) :
    r.google_id = gid ∨ r ∈ l := by
  unfold G.gUpdateByGid at h
  obtain ⟨x, hx, hxr⟩ := List.mem_map.mp h
  by_cases hb : (x.google_id == gid) = true
  · rw [if_pos hb] at hxr
    left
    rw [← hxr, hf x]
    simpa using hb
  · rw [if_neg hb] at hxr
    right
    rw [← hxr]
    exact hx

/-- A lookup hit survives filtering whenever the hit row is kept. -/
theorem gFindByGid_filter (l : List G.StoredTask) (p : G.StoredTask → Bool)
    (q : String) (r : G.StoredTask) (hfind : G.gFindByGid l q = some r)
    (hp : p r = true) : G.gFindByGid (l.filter p) q = some r := by
  induction l with
  | nil => simp [G.gFindByGid] at hfind
  | cons x xs ih =>
    unfold G.gFindByGid at ih hfind ⊢
    rw [List.filter_cons]
    by_cases hx : (x.google_id == q) = true
    · rw [@List.find?_cons_of_pos _ (fun r => r.google_id == q) x _ hx] at hfind
      simp only [Option.some.injEq] at hfind
      subst hfind
      rw [if_pos hp, @List.find?_cons_of_pos _ (fun r => r.google_id == q) x _ hx]
    · rw [@List.find?_cons_of_neg _ (fun r => r.google_id == q) x _ hx] at hfind
      by_cases hpx : p x = true
      · rw [if_pos hpx, @List.find?_cons_of_neg _ (fun r => r.google_id == q) x _ hx]
        exact ih hfind
      · rw [if_neg hpx]
        exact ih hfind

end TodoistBridge

namespace TodoistBridge

/-- A task that agrees with its snapshot is a no-op for `syncTask` (any
environment): no call, no storage change, no tally. -/
theorem syncTask_skip (g : G.GoogleTask) (taskListId googleListId projectId : String)
    (storedMap : List G.StoredTask) (tags : List String) (parentTid : Option String)
    (env : Env) (s : G.GState) (stats : G.GStats) (r : G.StoredTask)
    (hfind : G.gFindByGid storedMap g.id = some r)
    (hch : G.hasGoogleTaskChanged g r = false)
    (htags : tagsEqual (parseStoredTags r.applied_tags) tags = true) :
    G.syncTask g taskListId googleListId projectId storedMap false tags parentTid env
      s stats = (s, stats) := by
  unfold G.syncTask
  rw [hfind]
  simp [hch, htags]

/-- Storage effect of the create path of `syncTask` (all calls succeed, no
delete-after-sync): exactly the new snapshot row is appended. -/
theorem syncTask_create_storage (g : G.GoogleTask)
    (taskListId googleListId projectId : String) (storedMap : List G.StoredTask)
    (tags : List String) (parentTid : Option String) (s : G.GState) (stats : G.GStats)
    (hnone : G.gFindByGid storedMap g.id = none) :
    (G.syncTask g taskListId googleListId projectId storedMap false tags parentTid
        allOk s stats).1.storage
      = s.storage ++ [G.snapshotOf g parentTid tags
          (G.newRowBase g taskListId (freshId s.clock))] := by
  unfold G.syncTask
  rw [hnone]
  by_cases hc : (g.status == "completed") = true <;> simp [hc, G.emitG, allOk]

set_option maxHeartbeats 1000000 in
/-- Storage effect of the update path of `syncTask` when something changed
(all calls succeed, no delete-after-sync): the row is rewritten with the
shared snapshot columns. -/
theorem syncTask_update_storage (g : G.GoogleTask)
    (taskListId googleListId projectId : String) (storedMap : List G.StoredTask)
    (tags : List String) (parentTid : Option String) (s : G.GState) (stats : G.GStats)
    (r : G.StoredTask) (hsome : G.gFindByGid storedMap g.id = some r)
    (hchanged : (G.hasGoogleTaskChanged g r
      || !tagsEqual (parseStoredTags r.applied_tags) tags) = true) :
    (G.syncTask g taskListId googleListId projectId storedMap false tags parentTid
        allOk s stats).1.storage
      = G.gUpdateByGid g.id (G.snapshotOf g parentTid tags) s.storage := by
  have hblock : ∀ taskChanged tagsCh,
      (G.updateBlock g r tags parentTid taskChanged tagsCh allOk s stats).1.storage
        = G.gUpdateByGid g.id (G.snapshotOf g parentTid tags) s.storage := by
    intro taskChanged tagsCh
    unfold G.updateBlock
    rcases hm : G.mapGoogleToTodoistUpdate g r with _ | u <;>
      cases taskChanged <;> cases tagsCh <;>
        simp [hm, G.emitG, allOk] <;> split_ifs <;> rfl
  unfold G.syncTask
  rw [hsome]
  simp only [hchanged, if_true, Bool.false_and, Bool.false_eq_true, if_false]
  exact hblock _ _

end TodoistBridge

namespace TodoistBridge

/-- One run-1 step of the creation/update pass (all calls succeed, no
delete-after-sync): afterwards the processed task has an agreeing row,
other ids look up unchanged, id-uniqueness is preserved, and every row is
either the task's row or an old row. -/
theorem syncTask_run1 (g : G.GoogleTask) (taskListId googleListId projectId : String)
    (storedMap : List G.StoredTask) (tags : List String) (parentTid : Option String)
    (s : G.GState) (stats : G.GStats)
    (hnodup : (s.storage.map (fun r => r.google_id)).Nodup)
    (hlook : G.gFindByGid s.storage g.id = G.gFindByGid storedMap g.id) :
    (((G.syncTask g taskListId googleListId projectId storedMap false tags parentTid
        allOk s stats).1.storage.map (fun r => r.google_id)).Nodup) ∧
    (∃ r, G.gFindByGid (G.syncTask g taskListId googleListId projectId storedMap false
        tags parentTid allOk s stats).1.storage g.id = some r ∧ agreesWith tags g r) ∧
    (∀ q : String, q ≠ g.id →
      G.gFindByGid (G.syncTask g taskListId googleListId projectId storedMap false tags
        parentTid allOk s stats).1.storage q = G.gFindByGid s.storage q) ∧
    (∀ r ∈ (G.syncTask g taskListId googleListId projectId storedMap false tags
        parentTid allOk s stats).1.storage, r.google_id = g.id ∨ r ∈ s.storage) := by
  rcases hfind : G.gFindByGid storedMap g.id with _ | r0
  · -- create path
    have hlive : G.gFindByGid s.storage g.id = none := by rw [hlook, hfind]
    have hstor := syncTask_create_storage g taskListId googleListId projectId storedMap
      tags parentTid s stats hfind
    have hgid : (G.snapshotOf g parentTid tags
        (G.newRowBase g taskListId (freshId s.clock))).google_id = g.id := rfl
    have hnotmem : g.id ∉ s.storage.map (fun r => r.google_id) := by
      intro hmem
      obtain ⟨r, hr, hre⟩ := List.mem_map.mp hmem
      exact gFindByGid_eq_none s.storage g.id hlive r hr hre
    refine ⟨?_, ?_, ?_, ?_⟩
    · rw [hstor, List.map_append]
      rw [List.nodup_append]
      refine ⟨hnodup, by simp, ?_⟩
      intro a ha hb
      simp only [List.map_cons, List.map_nil, List.mem_cons, List.not_mem_nil,
        or_false, hgid] at hb
      rw [hb] at ha
      exact hnotmem ha
    · refine ⟨G.snapshotOf g parentTid tags
        (G.newRowBase g taskListId (freshId s.clock)), ?_, ?_⟩
      · rw [hstor]
        exact gFindByGid_append_self s.storage _ g.id hlive hgid
      · exact agreesWith_snapshotOf tags g parentTid _
    · intro q hq
      rw [hstor]
      exact gFindByGid_append_other s.storage _ q (by rw [hgid]; exact fun h => hq h.symm)
    · intro r hr
      rw [hstor] at hr
      rcases List.mem_append.mp hr with h | h
      · exact Or.inr h
      · simp only [List.mem_cons, List.not_mem_nil, or_false] at h
        exact Or.inl (by rw [h, hgid])
  · -- row exists
    have hlive : G.gFindByGid s.storage g.id = some r0 := by rw [hlook, hfind]
    by_cases hchg : (G.hasGoogleTaskChanged g r0
        || !tagsEqual (parseStoredTags r0.applied_tags) tags) = true
    · -- update path
      have hstor := syncTask_update_storage g taskListId googleListId projectId
        storedMap tags parentTid s stats r0 hfind hchg
      have hf : ∀ x, (G.snapshotOf g parentTid tags x).google_id = x.google_id :=
        fun x => rfl
      refine ⟨?_, ?_, ?_, ?_⟩
      · rw [hstor, gUpdateByGid_map_ids s.storage g.id _ hf]
        exact hnodup
      · refine ⟨G.snapshotOf g parentTid tags r0, ?_, ?_⟩
        · rw [hstor]
          exact gFindByGid_update_self s.storage g.id _ hf r0 hlive
        · exact agreesWith_snapshotOf tags g parentTid r0
      · intro q hq
        rw [hstor]
        exact gFindByGid_update_other s.storage g.id _ hf q (fun h => hq h.symm)
      · intro r hr
        rw [hstor] at hr
        exact gUpdateByGid_mem s.storage g.id _ hf r hr
    · -- unchanged
      have hch : G.hasGoogleTaskChanged g r0 = false ∧
          tagsEqual (parseStoredTags r0.applied_tags) tags = true := by
        rcases hb1 : G.hasGoogleTaskChanged g r0 with _ | _ <;>
          rcases hb2 : tagsEqual (parseStoredTags r0.applied_tags) tags with _ | _ <;>
            simp [hb1, hb2] at hchg ⊢
      have hskip := syncTask_skip g taskListId googleListId projectId storedMap tags
        parentTid allOk s stats r0 hfind hch.1 hch.2
      rw [hskip]
      exact ⟨hnodup, ⟨r0, hlive, hch.1, hch.2⟩,
        fun q _ => rfl, fun r hr => Or.inr hr⟩

end TodoistBridge

namespace TodoistBridge

/-- Run-1 invariant of the parent loop: every processed task ends with an
agreeing row, other lookups and rows are untouched, ids stay unique. -/
theorem syncParents_run1 (taskListId googleListId projectId : String)
    (storedMap : List G.StoredTask) (tags : List String) (l : List G.GoogleTask)
    (s : G.GState) (stats : G.GStats)
    (hnodupS : (s.storage.map (fun r => r.google_id)).Nodup)
    (hnodupL : (l.map (fun t => t.id)).Nodup)
    (hlook : ∀ g ∈ l, G.gFindByGid s.storage g.id = G.gFindByGid storedMap g.id) :
    (((G.syncParents taskListId googleListId projectId storedMap false tags allOk l
        s stats).1.storage.map (fun r => r.google_id)).Nodup) ∧
    (∀ g ∈ l, ∃ r, G.gFindByGid (G.syncParents taskListId googleListId projectId
        storedMap false tags allOk l s stats).1.storage g.id = some r
        ∧ agreesWith tags g r) ∧
    (∀ q : String, (∀ g ∈ l, g.id ≠ q) →
      G.gFindByGid (G.syncParents taskListId googleListId projectId storedMap false
        tags allOk l s stats).1.storage q = G.gFindByGid s.storage q) ∧
    (∀ r ∈ (G.syncParents taskListId googleListId projectId storedMap false tags allOk
        l s stats).1.storage, (∀ g ∈ l, g.id ≠ r.google_id) → r ∈ s.storage) := by
  induction l generalizing s stats with
  | nil =>
    exact ⟨hnodupS, by simp, fun q _ => rfl, fun r hr _ => hr⟩
  | cons g rest ih =>
    have hstep := syncTask_run1 g taskListId googleListId projectId storedMap tags
      Option.none s stats hnodupS (hlook g (List.mem_cons_self g rest))
    obtain ⟨hN, ⟨rg, hrg, hag⟩, hFrame, hMem⟩ := hstep
    rw [List.map_cons, List.nodup_cons] at hnodupL
    have hrestid : ∀ g' ∈ rest, g'.id ≠ g.id := by
      intro g' hg' he
      exact hnodupL.1 (he ▸ List.mem_map_of_mem (fun t => t.id) hg')
    have hlook' : ∀ g' ∈ rest,
        G.gFindByGid (G.syncTask g taskListId googleListId projectId storedMap false
          tags Option.none allOk s stats).1.storage g'.id
          = G.gFindByGid storedMap g'.id := by
      intro g' hg'
      rw [hFrame g'.id (hrestid g' hg')]
      exact hlook g' (List.mem_cons_of_mem g hg')
    have hrec := ih ((G.syncTask g taskListId googleListId projectId storedMap false
        tags Option.none allOk s stats).1)
      ((G.syncTask g taskListId googleListId projectId storedMap false tags
        Option.none allOk s stats).2) hN hnodupL.2 hlook'
    obtain ⟨iN, iRows, iFrame, iMem⟩ := hrec
    have hunf : G.syncParents taskListId googleListId projectId storedMap false tags
        allOk (g :: rest) s stats
        = G.syncParents taskListId googleListId projectId storedMap false tags allOk
          rest ((G.syncTask g taskListId googleListId projectId storedMap false tags
            Option.none allOk s stats).1)
          ((G.syncTask g taskListId googleListId projectId storedMap false tags
            Option.none allOk s stats).2) := rfl
    rw [hunf]
    refine ⟨iN, ?_, ?_, ?_⟩
    · intro g' hg'
      rcases List.mem_cons.mp hg' with h | h
      · subst h
        refine ⟨rg, ?_, hag⟩
        rw [iFrame g'.id (fun p hp => hrestid p hp)]
        exact hrg
      · exact iRows g' h
    · intro q hq
      rw [iFrame q (fun p hp => hq p (List.mem_cons_of_mem g hp))]
      rw [hFrame q (fun he => hq g (List.mem_cons_self g rest) he.symm)]
    · intro r hr hq
      have h1 := iMem r hr (fun p hp => hq p (List.mem_cons_of_mem g hp))
      rcases hMem r h1 with h | h
      · exact absurd h.symm (hq g (List.mem_cons_self g rest))
      · exact h

end TodoistBridge

namespace TodoistBridge

/-- Run-1 invariant of the child loop: every processed task ends with an
agreeing row, other lookups and rows are untouched, ids stay unique. -/
theorem syncChildren_run1 (taskListId googleListId projectId : String)
    (storedMap : List G.StoredTask) (tags : List String) (l : List G.GoogleTask)
    (s : G.GState) (stats : G.GStats)
    (hnodupS : (s.storage.map (fun r => r.google_id)).Nodup)
    (hnodupL : (l.map (fun t => t.id)).Nodup)
    (hlook : ∀ g ∈ l, G.gFindByGid s.storage g.id = G.gFindByGid storedMap g.id) :
    (((G.syncChildren taskListId googleListId projectId storedMap false tags allOk l
        s stats).1.storage.map (fun r => r.google_id)).Nodup) ∧
    (∀ g ∈ l, ∃ r, G.gFindByGid (G.syncChildren taskListId googleListId projectId
        storedMap false tags allOk l s stats).1.storage g.id = some r
        ∧ agreesWith tags g r) ∧
    (∀ q : String, (∀ g ∈ l, g.id ≠ q) →
      G.gFindByGid (G.syncChildren taskListId googleListId projectId storedMap false
        tags allOk l s stats).1.storage q = G.gFindByGid s.storage q) ∧
    (∀ r ∈ (G.syncChildren taskListId googleListId projectId storedMap false tags allOk
        l s stats).1.storage, (∀ g ∈ l, g.id ≠ r.google_id) → r ∈ s.storage) := by
  induction l generalizing s stats with
  | nil =>
    exact ⟨hnodupS, by simp, fun q _ => rfl, fun r hr _ => hr⟩
  | cons g rest ih =>
    have hstep := syncTask_run1 g taskListId googleListId projectId storedMap tags
      (jsOrNull ((G.gFindByGid s.storage (orEmpty g.parent)).bind
        (fun r => r.todoist_id))) s stats hnodupS (hlook g (List.mem_cons_self g rest))
    obtain ⟨hN, ⟨rg, hrg, hag⟩, hFrame, hMem⟩ := hstep
    rw [List.map_cons, List.nodup_cons] at hnodupL
    have hrestid : ∀ g' ∈ rest, g'.id ≠ g.id := by
      intro g' hg' he
      exact hnodupL.1 (he ▸ List.mem_map_of_mem (fun t => t.id) hg')
    have hlook' : ∀ g' ∈ rest,
        G.gFindByGid (G.syncTask g taskListId googleListId projectId storedMap false
          tags (jsOrNull ((G.gFindByGid s.storage (orEmpty g.parent)).bind
            (fun r => r.todoist_id))) allOk s stats).1.storage g'.id
          = G.gFindByGid storedMap g'.id := by
      intro g' hg'
      rw [hFrame g'.id (hrestid g' hg')]
      exact hlook g' (List.mem_cons_of_mem g hg')
    have hrec := ih ((G.syncTask g taskListId googleListId projectId storedMap false
        tags (jsOrNull ((G.gFindByGid s.storage (orEmpty g.parent)).bind
            (fun r => r.todoist_id))) allOk s stats).1)
      ((G.syncTask g taskListId googleListId projectId storedMap false tags
        (jsOrNull ((G.gFindByGid s.storage (orEmpty g.parent)).bind
            (fun r => r.todoist_id))) allOk s stats).2) hN hnodupL.2 hlook'
    obtain ⟨iN, iRows, iFrame, iMem⟩ := hrec
    have hunf : G.syncChildren taskListId googleListId projectId storedMap false tags
        allOk (g :: rest) s stats
        = G.syncChildren taskListId googleListId projectId storedMap false tags allOk
          rest ((G.syncTask g taskListId googleListId projectId storedMap false tags
            (jsOrNull ((G.gFindByGid s.storage (orEmpty g.parent)).bind
            (fun r => r.todoist_id))) allOk s stats).1)
          ((G.syncTask g taskListId googleListId projectId storedMap false tags
            (jsOrNull ((G.gFindByGid s.storage (orEmpty g.parent)).bind
            (fun r => r.todoist_id))) allOk s stats).2) := rfl
    rw [hunf]
    refine ⟨iN, ?_, ?_, ?_⟩
    · intro g' hg'
      rcases List.mem_cons.mp hg' with h | h
      · subst h
        refine ⟨rg, ?_, hag⟩
        rw [iFrame g'.id (fun p hp => hrestid p hp)]
        exact hrg
      · exact iRows g' h
    · intro q hq
      rw [iFrame q (fun p hp => hq p (List.mem_cons_of_mem g hp))]
      rw [hFrame q (fun he => hq g (List.mem_cons_self g rest) he.symm)]
    · intro r hr hq
      have h1 := iMem r hr (fun p hp => hq p (List.mem_cons_of_mem g hp))
      rcases hMem r h1 with h | h
      · exact absurd h.symm (hq g (List.mem_cons_self g rest))
      · exact h


end TodoistBridge

namespace TodoistBridge

/-- When every task agrees with its snapshot, the parent loop is the
identity. -/
theorem syncParents_skip (taskListId googleListId projectId : String)
    (storedMap : List G.StoredTask) (tags : List String) (env : Env)
    (l : List G.GoogleTask) (s : G.GState) (stats : G.GStats)
    (h : ∀ g ∈ l, ∃ r, G.gFindByGid storedMap g.id = some r ∧ agreesWith tags g r) :
    G.syncParents taskListId googleListId projectId storedMap false tags env l s stats
      = (s, stats) := by
  induction l generalizing s stats with
  | nil => rfl
  | cons g rest ih =>
    obtain ⟨r, hfr, h1, h2⟩ := h g (List.mem_cons_self g rest)
    have hskip := syncTask_skip g taskListId googleListId projectId storedMap tags
      Option.none env s stats r hfr h1 h2
    have hunf : G.syncParents taskListId googleListId projectId storedMap false tags
        env (g :: rest) s stats
        = G.syncParents taskListId googleListId projectId storedMap false tags env
          rest ((G.syncTask g taskListId googleListId projectId storedMap false tags
            Option.none env s stats).1)
          ((G.syncTask g taskListId googleListId projectId storedMap false tags
            Option.none env s stats).2) := rfl
    rw [hunf, hskip]
    exact ih s stats (fun g' hg' => h g' (List.mem_cons_of_mem g hg'))

/-- When every task agrees with its snapshot, the child loop is the
identity. -/
theorem syncChildren_skip (taskListId googleListId projectId : String)
    (storedMap : List G.StoredTask) (tags : List String) (env : Env)
    (l : List G.GoogleTask) (s : G.GState) (stats : G.GStats)
    (h : ∀ g ∈ l, ∃ r, G.gFindByGid storedMap g.id = some r ∧ agreesWith tags g r) :
    G.syncChildren taskListId googleListId projectId storedMap false tags env l s stats
      = (s, stats) := by
  induction l generalizing s stats with
  | nil => rfl
  | cons g rest ih =>
    obtain ⟨r, hfr, h1, h2⟩ := h g (List.mem_cons_self g rest)
    have hskip := syncTask_skip g taskListId googleListId projectId storedMap tags
      (jsOrNull ((G.gFindByGid s.storage (orEmpty g.parent)).bind
        (fun r => r.todoist_id))) env s stats r hfr h1 h2
    have hunf : G.syncChildren taskListId googleListId projectId storedMap false tags
        env (g :: rest) s stats
        = G.syncChildren taskListId googleListId projectId storedMap false tags env
          rest ((G.syncTask g taskListId googleListId projectId storedMap false tags
            (jsOrNull ((G.gFindByGid s.storage (orEmpty g.parent)).bind
              (fun r => r.todoist_id))) env s stats).1)
          ((G.syncTask g taskListId googleListId projectId storedMap false tags
            (jsOrNull ((G.gFindByGid s.storage (orEmpty g.parent)).bind
              (fun r => r.todoist_id))) env s stats).2) := rfl
    rw [hunf, hskip]
    exact ih s stats (fun g' hg' => h g' (List.mem_cons_of_mem g hg'))

/-- The deletion pass never touches the `created` and `updated` tallies. -/
theorem deletionPass_stats_frame (seen : List String) (env : Env)
    (rows : List G.StoredTask) (s : G.GState) (stats : G.GStats) :
    (G.deletionPass seen env rows s stats).2.created = stats.created ∧
    (G.deletionPass seen env rows s stats).2.updated = stats.updated := by
  induction rows generalizing s stats with
  | nil => exact ⟨rfl, rfl⟩
  | cons q rest ih =>
    unfold G.deletionPass
    cases hseen : seen.contains q.google_id with
    | true =>
      simp only [if_pos rfl, if_true]
      exact ih _ _
    | false =>
      simp only [Bool.false_eq_true, if_false]
      cases htr : truthyStr q.todoist_id with
      | true =>
        simp only [htr, if_true, G.emitG]
        exact ih _ _
      | false =>
        simp only [htr, Bool.false_eq_true, if_false]
        exact ih _ _

end TodoistBridge

namespace TodoistBridge

/-- After one full run of `syncTaskList` (all calls succeed, no
delete-after-sync, unique ids) every fetched task has an agreeing
snapshot row and every surviving row belongs to a fetched task. -/
theorem syncTaskList_run1 (googleTasks : List G.GoogleTask)
    (taskListId googleListId projectId : String) (tags : List String) (s0 : G.GState)
    (hT : (googleTasks.map (fun t => t.id)).Nodup)
    (hS : (s0.storage.map (fun r => r.google_id)).Nodup) :
    (∀ g ∈ googleTasks, ∃ r,
      G.gFindByGid (G.syncTaskList googleTasks taskListId googleListId projectId false
        tags allOk s0).1.storage g.id = some r ∧ agreesWith tags g r) ∧
    (∀ r ∈ (G.syncTaskList googleTasks taskListId googleListId projectId false tags
        allOk s0).1.storage, r.google_id ∈ googleTasks.map (fun t => t.id)) := by
  have hperm : ((googleTasks.filter (fun t => !truthyStr t.parent))
      ++ (googleTasks.filter (fun t => truthyStr t.parent))).Perm googleTasks := by
    have h0 := List.filter_append_perm (fun t : G.GoogleTask => !truthyStr t.parent)
      googleTasks
    have h1 : googleTasks.filter (fun t : G.GoogleTask => !(!truthyStr t.parent))
        = googleTasks.filter (fun t => truthyStr t.parent) :=
      List.filter_congr (fun t _ => by rw [Bool.not_not])
    rw [h1] at h0
    exact h0
  have hNodupPC : (((googleTasks.filter (fun t => !truthyStr t.parent)).map
        (fun t => t.id))
      ++ ((googleTasks.filter (fun t => truthyStr t.parent)).map
        (fun t => t.id))).Nodup := by
    rw [← List.map_append]
    exact ((hperm.map (fun t => t.id)).nodup_iff).mpr hT
  have hNP := List.Nodup.of_append_left hNodupPC
  have hNC := List.Nodup.of_append_right hNodupPC
  have hdisj := List.disjoint_of_nodup_append hNodupPC
  rcases hp : G.syncParents taskListId googleListId projectId s0.storage false tags
      allOk (googleTasks.filter (fun t => !truthyStr t.parent)) s0 G.zeroStats
    with ⟨s1, st1⟩
  have hpfacts := syncParents_run1 taskListId googleListId projectId s0.storage tags
    (googleTasks.filter (fun t => !truthyStr t.parent)) s0 G.zeroStats hS hNP
    (fun g _ => rfl)
  rw [hp] at hpfacts
  dsimp only at hpfacts
  obtain ⟨pN, pRows, pFrame, pMem⟩ := hpfacts
  rcases hc : G.syncChildren taskListId googleListId projectId s0.storage false tags
      allOk (googleTasks.filter (fun t => truthyStr t.parent)) s1 st1
    with ⟨s2, st2⟩
  have hcfacts := syncChildren_run1 taskListId googleListId projectId s0.storage tags
    (googleTasks.filter (fun t => truthyStr t.parent)) s1 st1 pN hNC
    (fun g hg => pFrame g.id (fun p hp2 he =>
      hdisj (he ▸ List.mem_map_of_mem (fun t => t.id) hp2)
        (List.mem_map_of_mem (fun t => t.id) hg)))
  rw [hc] at hcfacts
  dsimp only at hcfacts
  obtain ⟨cN, cRows, cFrame, cMem⟩ := hcfacts
  have hdef : G.syncTaskList googleTasks taskListId googleListId projectId false tags
      allOk s0
      = G.deletionPass (googleTasks.map (fun t => t.id)) allOk s0.storage s2 st2 := by
    unfold G.syncTaskList
    simp only [hp, hc]
  rw [hdef]
  have hstor := deletionPass_storage (googleTasks.map (fun t => t.id)) allOk
    s0.storage s2 st2
  constructor
  · intro g hg
    have hrow : ∃ r, G.gFindByGid s2.storage g.id = some r ∧ agreesWith tags g r := by
      by_cases hgp : truthyStr g.parent = true
      · exact cRows g (List.mem_filter.mpr ⟨hg, hgp⟩)
      · obtain ⟨r, hr, ha⟩ := pRows g
          (List.mem_filter.mpr ⟨hg, by simp [hgp]⟩)
        refine ⟨r, ?_, ha⟩
        rw [cFrame g.id (fun c hc2 he =>
          hdisj (he ▸ List.mem_map_of_mem (fun t => t.id)
            (List.mem_filter.mpr ⟨hg, by simp [hgp]⟩))
            (List.mem_map_of_mem (fun t => t.id) hc2))]
        exact hr
    obtain ⟨r, hr, ha⟩ := hrow
    have hrgid : r.google_id = g.id := by
      have := List.find?_some hr
      simpa using this
    refine ⟨r, ?_, ha⟩
    rw [hstor]
    apply gFindByGid_filter s2.storage _ g.id r hr
    have hany : (s0.storage.any (fun q =>
        q.google_id == r.google_id && !((googleTasks.map (fun t => t.id)).contains
          q.google_id))) = false := by
      rw [List.any_eq_false]
      intro q _
      intro hcond
      rw [Bool.and_eq_true] at hcond
      have hqg : q.google_id = r.google_id := by simpa using hcond.1
      have hmem : q.google_id ∈ googleTasks.map (fun t => t.id) := by
        rw [hqg, hrgid]
        exact List.mem_map_of_mem (fun t => t.id) hg
      have hc2 := hcond.2
      have hctrue : ((googleTasks.map (fun t => t.id)).contains q.google_id) = true :=
        List.elem_iff.mpr hmem
      rw [hctrue] at hc2
      simp at hc2
    rw [hany]
    rfl
  · intro r hr
    rw [hstor] at hr
    have hr2 := List.mem_filter.mp hr
    by_contra hnot
    have hmem1 : r ∈ s1.storage := cMem r hr2.1 (fun c hc2 he => hnot (he ▸
      List.mem_map_of_mem (fun t => t.id) (List.mem_filter.mp hc2).1))
    have hmem0 : r ∈ s0.storage := pMem r hmem1 (fun p hp2 he => hnot (he ▸
      List.mem_map_of_mem (fun t => t.id) (List.mem_filter.mp hp2).1))
    have hcontains : ((googleTasks.map (fun t => t.id)).contains r.google_id) = false := by
      rcases hcc : ((googleTasks.map (fun t => t.id)).contains r.google_id) with _ | _
      · exact hcc
      · exact absurd (List.elem_iff.mp hcc) hnot
    have hany : (s0.storage.any (fun q =>
        q.google_id == r.google_id && !((googleTasks.map (fun t => t.id)).contains
          q.google_id))) = true := by
      rw [List.any_eq_true]
      exact ⟨r, hmem0, by rw [hcontains]; simp⟩
    rw [hany] at hr2
    simpa using hr2.2

end TodoistBridge

namespace TodoistBridge

/-- Claim C4: one-way reconciliation is idempotent — with the identical
remote fetch set, no intervening remote change (all calls succeed, no
delete-after-sync, unique ids on both sides), running `syncTaskList`
twice in a row yields a second result whose `created`, `updated` and
`deleted` tallies are all zero. -/
theorem c4_one_way_idempotent (googleTasks : List G.GoogleTask)
    (taskListId googleListId projectId : String) (tags : List String) (s0 : G.GState)
    (hT : (googleTasks.map (fun t => t.id)).Nodup)
    (hS : (s0.storage.map (fun r => r.google_id)).Nodup) :
    (G.syncTaskList googleTasks taskListId googleListId projectId false tags allOk
      ((G.syncTaskList googleTasks taskListId googleListId projectId false tags allOk
        s0).1)).2.created = 0 ∧
    (G.syncTaskList googleTasks taskListId googleListId projectId false tags allOk
      ((G.syncTaskList googleTasks taskListId googleListId projectId false tags allOk
        s0).1)).2.updated = 0 ∧
    (G.syncTaskList googleTasks taskListId googleListId projectId false tags allOk
      ((G.syncTaskList googleTasks taskListId googleListId projectId false tags allOk
        s0).1)).2.deleted = 0 := by
  obtain ⟨R1, R2⟩ := syncTaskList_run1 googleTasks taskListId googleListId projectId
    tags s0 hT hS
  rcases hrun : G.syncTaskList googleTasks taskListId googleListId projectId false tags
      allOk s0 with ⟨S1, ST1⟩
  rw [hrun] at R1 R2
  dsimp only at R1 R2 ⊢
  have hsp := syncParents_skip taskListId googleListId projectId S1.storage tags allOk
    (googleTasks.filter (fun t => !truthyStr t.parent)) S1 G.zeroStats
    (fun g hg => R1 g (List.mem_filter.mp hg).1)
  have hsc := syncChildren_skip taskListId googleListId projectId S1.storage tags allOk
    (googleTasks.filter (fun t => truthyStr t.parent)) S1 G.zeroStats
    (fun g hg => R1 g (List.mem_filter.mp hg).1)
  have hdef2 : G.syncTaskList googleTasks taskListId googleListId projectId false tags
      allOk S1
      = G.deletionPass (googleTasks.map (fun t => t.id)) allOk S1.storage S1
          G.zeroStats := by
    unfold G.syncTaskList
    simp only [hsp, hsc]
  rw [hdef2]
  have hframe := deletionPass_stats_frame (googleTasks.map (fun t => t.id)) allOk
    S1.storage S1 G.zeroStats
  have hfil : S1.storage.filter (fun q =>
      !((googleTasks.map (fun t => t.id)).contains q.google_id)) = [] :=
    List.filter_eq_nil_iff.mpr (fun q hq => by
      have hct : ((googleTasks.map (fun t => t.id)).contains q.google_id) = true :=
        List.elem_iff.mpr (R2 q hq)
      rw [hct]
      simp)
  refine ⟨hframe.1, hframe.2, ?_⟩
  rw [deletionPass_deleted, hfil]
  rfl

/-- Fixture for the C4 witness: one fetched task. -/
def c4g : G.GoogleTask :=
  { id := "g1", title := "Buy milk", notes := none, status := "needsAction",
    due := some ("2024-01-15T00:00:00.000Z"), parent := none, updated := some (some 7) }

/-- Witness for C4: starting from an empty store, the second run over the
same single-task fetch reports no creations, updates or deletions. -/
theorem c4_witness :
    (G.syncTaskList [c4g] ("tl") ("gl") ("p") false (["grocery"]) allOk
      ((G.syncTaskList [c4g] ("tl") ("gl") ("p") false (["grocery"]) allOk
        ({ storage := [], calls := [], clock := 0 })).1)).2.created = 0 ∧
    (G.syncTaskList [c4g] ("tl") ("gl") ("p") false (["grocery"]) allOk
      ((G.syncTaskList [c4g] ("tl") ("gl") ("p") false (["grocery"]) allOk
        ({ storage := [], calls := [], clock := 0 })).1)).2.updated = 0 ∧
    (G.syncTaskList [c4g] ("tl") ("gl") ("p") false (["grocery"]) allOk
      ((G.syncTaskList [c4g] ("tl") ("gl") ("p") false (["grocery"]) allOk
        ({ storage := [], calls := [], clock := 0 })).1)).2.deleted = 0 :=
  c4_one_way_idempotent [c4g] ("tl") ("gl") ("p") (["grocery"])
    ({ storage := [], calls := [], clock := 0 }) (by simp) (by simp)

end TodoistBridge
